import Mathlib

/-!
Shallow embedding of the entservices-appgateway repository (selected parts)
and proofs about it.

Strings from the C++ source are modelled as `List Char`; `std::string`
operations (`find`, `substr`, `empty`) become explicit list operations.
`double` values are modelled as exact rationals `ℚ`; the
`std::numeric_limits<double>` sentinels used by the telemetry aggregator
become the exact rational values of `DBL_MAX` and its negation.
`Core::hresult` values from the host framework are modelled by an
inductive type since only their identity matters here.
-/

namespace AppGateway

/-- Result codes of the host framework (`Core::hresult`); only the codes
used by the embedded functions are represented. -/
inductive Hres where
  | errorNone
  | errorGeneral
  | errorUnavailable
deriving DecidableEq, Repr

/-- C++ `std::string::find(key)`: index of the first occurrence of `t`
as a contiguous substring of `l`, or `none` (`npos`). -/
def findSub (t : List Char) : List Char → Option Nat
  | [] => if t.isPrefixOf ([] : List Char) then some 0 else none
  | c :: xs => if t.isPrefixOf (c :: xs) then some 0 else (findSub t xs).map (· + 1)

/-- Association-list lookup, modelling `std::map::find`. -/
def lookupAssoc {α β : Type} [DecidableEq α] : List (α × β) → α → Option β
  | [], _ => none
  | (k, v) :: rest, key => if k = key then some v else lookupAssoc rest key

/-- Association-list insert-or-replace, modelling `std::map::operator[]`
followed by assignment. -/
def insertAssoc {α β : Type} [DecidableEq α] : List (α × β) → α → β → List (α × β)
  | [], key, v => [(key, v)]
  | (k, w) :: rest, key, v =>
      if k = key then (k, v) :: rest else (k, w) :: insertAssoc rest key v

/-- ASCII `tolower`, as applied by `StringUtils::toLower` char by char. -/
def toLowerChar (c : Char) : Char :=
  if 'A' ≤ c ∧ c ≤ 'Z' then Char.ofNat (c.toNat + 32) else c

/-- Embeds `StringUtils::toLower`. -/
def toLowerStr (s : List Char) : List Char := s.map toLowerChar

/-! ## `Utils::ResolveQuery` (src/helpers/UtilsConnections.h)

`resolveQuery query key` returns `none` exactly when the C++ function
would throw `std::out_of_range` from `substr` (first-occurrence index of
`key` plus `key.length()+1` past the end of `query`); otherwise `some`
of the returned string. -/

def resolveQuery (query key : List Char) : Option (List Char) :=
  if query = [] then some []
  else
    match findSub key query with
    | none => some []
    | some pos =>
      if query.length < pos + key.length + 1 then none
      else
        let value := query.drop (pos + key.length + 1)
        if value = [] then some []
        else
          match findSub ['&'] query with
          | some amp =>
              let newValue := value.take amp
              if newValue = [] then some value else some newValue
          | none => some value

/-! ## Lifecycle delegate event validation
(src/AppGatewayCommon/delegate/LifecycleDelegate.h) -/

/-- The `VALID_LIFECYCLE_EVENT` set, verbatim from the source (note the
upper-case `C` in the last entry). -/
def VALID_LIFECYCLE_EVENT : List (List Char) :=
  [ "lifecycle.onbackground".data
  , "lifecycle.onforeground".data
  , "lifecycle.oninactive".data
  , "lifecycle.onsuspended".data
  , "lifecycle.onunloading".data
  , "lifecycle2.onstatechanged".data
  , "discovery.onnavigateto".data
  , "presentation.onfocusedChanged".data ]

/-- Embeds `LifecycleDelegate::HandleEvent`: returns `(recognized, registrationError)`.
`HandleSubscription` always returns `false`, so a recognized event sets the
registration error to `false`; an unrecognized one leaves it untouched. -/
def handleEvent (event : List Char) (registrationError : Bool) : Bool × Bool :=
  if VALID_LIFECYCLE_EVENT.contains (toLowerStr event) then (true, false)
  else (false, registrationError)

/-! ## Lifecycle state cache
(src/AppGatewayCommon/delegate/LifecycleDelegate.h) -/

/-- Embeds `Exchange::ILifecycleManager::LifecycleState`. -/
inductive Lc2State where
  | unloaded
  | loading
  | initializing
  | paused
  | active
  | suspended
  | hibernated
  | terminating
deriving DecidableEq, Repr

/-- Embeds `LifecycleStateToString`. -/
def lifecycleStateToString : Lc2State → List Char
  | .unloaded => "unloaded".data
  | .loading => "loading".data
  | .initializing => "initializing".data
  | .paused => "paused".data
  | .active => "active".data
  | .suspended => "suspended".data
  | .hibernated => "hibernated".data
  | .terminating => "terminating".data

/-- Embeds `Lifecycle2StateToLifecycle1String`. -/
def lifecycle2StateToLifecycle1String : Lc2State → List Char
  | .unloaded => "unloading".data
  | .terminating => "unloading".data
  | .loading => "initializing".data
  | .initializing => "initializing".data
  | .paused => "inactive".data
  | .active => "foreground".data
  | .hibernated => "suspended".data
  | .suspended => "suspended".data

/-- Embeds `LifecycleDelegate::LifecycleStateInfo`. -/
structure LifecycleStateInfo where
  previousState : Lc2State
  currentState : Lc2State
deriving DecidableEq, Repr

/-- The registries of `LifecycleDelegate` relevant to state queries. -/
structure LifecycleDelegateState where
  appIdInstanceIdMap : List (List Char × List Char)
  lifecycleStateMap : List (List Char × LifecycleStateInfo)
deriving DecidableEq, Repr

/-- Embeds `AppIdInstanceIdMap::GetAppInstanceId` (returns `""` on absence). -/
def getAppInstanceId (st : LifecycleDelegateState) (appId : List Char) : List Char :=
  (lookupAssoc st.appIdInstanceIdMap appId).getD []

/-- Embeds `LifecycleStateRegistry::GetLifecycleStateInfo` (defaults an absent
entry to the `UNLOADED`/`UNLOADED` pair). -/
def getLifecycleStateInfo (st : LifecycleDelegateState) (appInstanceId : List Char) :
    LifecycleStateInfo :=
  (lookupAssoc st.lifecycleStateMap appInstanceId).getD ⟨.unloaded, .unloaded⟩

/-- Embeds `LifecycleDelegate::Lifecycle2State` dropped to its result pair. -/
def lifecycle2State (st : LifecycleDelegateState) (ctxAppId : List Char) :
    Hres × List Char :=
  (.errorNone,
   lifecycleStateToString (getLifecycleStateInfo st (getAppInstanceId st ctxAppId)).currentState)

/-- Embeds `LifecycleDelegate::LifecycleState` dropped to its result pair. -/
def lifecycleState (st : LifecycleDelegateState) (ctxAppId : List Char) :
    Hres × List Char :=
  (.errorNone,
   lifecycle2StateToLifecycle1String
     (getLifecycleStateInfo st (getAppInstanceId st ctxAppId)).currentState)

/-! ## Voice-guidance speed conversions
(src/AppGatewayCommon/AppGatewayCommon.cpp, SetSpeed/GetSpeed) -/

/-- The firebolt-to-thunder rate mapping inside `AppGatewayCommon::SetSpeed`. -/
def vgSpeedFirebolt2Thunder (speed : ℚ) : ℚ :=
  if speed = 2 then 10
  else if speed ≥ 167/100 then 138/100
  else if speed ≥ 133/100 then 119/100
  else if speed ≥ 1 then 1
  else 1/10

/-- The thunder-to-firebolt speed mapping inside `AppGatewayCommon::GetSpeed`. -/
def vgSpeedThunder2Firebolt (rate : ℚ) : ℚ :=
  if rate ≥ 156/100 then 2
  else if rate ≥ 138/100 then 167/100
  else if rate ≥ 119/100 then 133/100
  else if rate ≥ 1 then 1
  else 1/2

/-- The state visible to `SetSpeed`/`GetSpeed`: whether the user-settings
delegate is reachable, and the voice-guidance rate it stores (the delegate
is assumed to hand the stored rate back unchanged). -/
structure UserSettingsState where
  hasDelegate : Bool
  voiceGuidanceRate : ℚ
deriving DecidableEq, Repr

/-- Embeds `AppGatewayCommon::SetSpeed`. -/
def setSpeed (speed : ℚ) (st : UserSettingsState) : UserSettingsState × Hres :=
  if st.hasDelegate then
    ({ st with voiceGuidanceRate := vgSpeedFirebolt2Thunder speed }, .errorNone)
  else (st, .errorUnavailable)

/-- Embeds `AppGatewayCommon::GetSpeed`: result code and the out-parameter
(`none` when the function returns before writing it). -/
def getSpeed (st : UserSettingsState) : Hres × Option ℚ :=
  if st.hasDelegate then
    (.errorNone, some (vgSpeedThunder2Firebolt st.voiceGuidanceRate))
  else (.errorUnavailable, none)

/-! ## Router inbound-frame dispatch
(src/AppGateway/AppGatewayResponderImplementation.cpp, DispatchWsMsg) -/

/-- Embeds `Exchange::GatewayContext` as built by `DispatchWsMsg`. -/
structure GatewayCtx where
  requestId : Nat
  connectionId : Nat
  appId : List Char
deriving DecidableEq, Repr

/-- The responder state consulted by `DispatchWsMsg`: the
connection-to-appId registry, the cached resolver interface (`mResolver`)
and the resolver the service would hand out on a query
(`mService->QueryInterface`), each modelled by availability. -/
structure ResponderState where
  appIdRegistry : List (Nat × List Char)
  resolver : Option Unit
  serviceResolver : Option Unit
deriving DecidableEq, Repr

/-- Observable outcome of one `DispatchWsMsg` call: connections closed on
the connection manager, `Resolve` invocations with their context, and the
cached resolver afterwards. -/
structure DispatchOutcome where
  closes : List Nat
  resolveCalls : List GatewayCtx
  resolverAfter : Option Unit
deriving DecidableEq, Repr

/-- Embeds `AppGatewayResponderImplementation::DispatchWsMsg`. -/
def dispatchWsMsg (st : ResponderState) (requestId connectionId : Nat) :
    DispatchOutcome :=
  match lookupAssoc st.appIdRegistry connectionId with
  | some appId =>
    let ctx : GatewayCtx := ⟨requestId, connectionId, appId⟩
    match st.resolver with
    | some r => ⟨[], [ctx], some r⟩
    | none =>
      match st.serviceResolver with
      | some r => ⟨[], [ctx], some r⟩
      | none => ⟨[], [], none⟩
  | none => ⟨[connectionId], [], st.resolver⟩

/-! ## Telemetry aggregator
(src/AppGateway/AppGatewayTelemetry.h / .cpp)

`double` fields are exact rationals. The sentinels
`std::numeric_limits<double>::max()` and `::lowest()` are the exact
rational values `dblMax` and `-dblMax`; every finite double other than
`DBL_MAX` itself lies strictly between the two. -/

/-- Exact value of `std::numeric_limits<double>::max()`. -/
def dblMax : ℚ := (2 ^ 53 - 1) * 2 ^ 971

/-- Exact value of `std::numeric_limits<double>::lowest()`. -/
def dblLowest : ℚ := -dblMax

/-- Embeds `static_cast<uint64_t>` applied to a non-negative double (truncation
toward zero), as used for the bootstrap duration. -/
def qToU64 (q : ℚ) : Nat := q.floor.toNat

/-- Marker `AGW_MARKER_BOOTSTRAP_DURATION`. -/
def AGW_MARKER_BOOTSTRAP_DURATION : List Char := "AppGwBootstrapDuration_split".data

/-- Marker `AGW_MARKER_BOOTSTRAP_PLUGIN_COUNT`. -/
def AGW_MARKER_BOOTSTRAP_PLUGIN_COUNT : List Char := "AppGwBootstrapPluginCount_split".data

/-- Marker `AGW_MARKER_PLUGIN_API_ERROR`. -/
def AGW_MARKER_PLUGIN_API_ERROR : List Char := "AppGwPluginApiError_split".data

/-- Marker `AGW_MARKER_PLUGIN_EXT_SERVICE_ERROR`. -/
def AGW_MARKER_PLUGIN_EXT_SERVICE_ERROR : List Char := "AppGwPluginExtServiceError_split".data

/-- Unit string `AGW_UNIT_MILLISECONDS`. -/
def AGW_UNIT_MILLISECONDS : List Char := "ms".data

/-- Unit string `AGW_UNIT_COUNT`. -/
def AGW_UNIT_COUNT : List Char := "count".data

/-- Embeds `AppGatewayTelemetry::MetricData` with its constructor defaults. -/
structure MetricData where
  sum : ℚ := 0
  min : ℚ := dblMax
  max : ℚ := dblLowest
  count : Nat := 0
  unit : List Char := []
deriving DecidableEq, Repr

/-- Embeds `AppGatewayTelemetry::ApiMethodStats` with its constructor defaults. -/
structure ApiMethodStats where
  pluginName : List Char := []
  methodName : List Char := []
  successCount : Nat := 0
  errorCount : Nat := 0
  totalSuccessLatencyMs : ℚ := 0
  totalErrorLatencyMs : ℚ := 0
  minSuccessLatencyMs : ℚ := dblMax
  maxSuccessLatencyMs : ℚ := dblLowest
  minErrorLatencyMs : ℚ := dblMax
  maxErrorLatencyMs : ℚ := dblLowest
deriving DecidableEq, Repr

/-- Embeds `AppGatewayTelemetry::ApiLatencyStats` with its constructor defaults. -/
structure ApiLatencyStats where
  pluginName : List Char := []
  apiName : List Char := []
  count : Nat := 0
  totalLatencyMs : ℚ := 0
  minLatencyMs : ℚ := dblMax
  maxLatencyMs : ℚ := dblLowest
deriving DecidableEq, Repr

/-- Embeds `AppGatewayTelemetry::ServiceLatencyStats` with its constructor defaults. -/
structure ServiceLatencyStats where
  pluginName : List Char := []
  serviceName : List Char := []
  count : Nat := 0
  totalLatencyMs : ℚ := 0
  minLatencyMs : ℚ := dblMax
  maxLatencyMs : ℚ := dblLowest
deriving DecidableEq, Repr

/-- Embeds `AppGatewayTelemetry::ServiceMethodStats` with its constructor defaults. -/
structure ServiceMethodStats where
  pluginName : List Char := []
  serviceName : List Char := []
  successCount : Nat := 0
  errorCount : Nat := 0
  totalSuccessLatencyMs : ℚ := 0
  totalErrorLatencyMs : ℚ := 0
  minSuccessLatencyMs : ℚ := dblMax
  maxSuccessLatencyMs : ℚ := dblLowest
  minErrorLatencyMs : ℚ := dblMax
  maxErrorLatencyMs : ℚ := dblLowest
deriving DecidableEq, Repr

/-- The state of the `AppGatewayTelemetry` singleton. Timestamps are
abstract `Nat` instants of the steady clock. -/
structure TelState where
  initialized : Bool
  reportingIntervalSec : Nat
  cacheThreshold : Nat
  websocketConnections : Nat
  totalCalls : Nat
  successfulCalls : Nat
  failedCalls : Nat
  apiErrorCounts : List (List Char × Nat)
  extServiceErrorCounts : List (List Char × Nat)
  apiMethodStats : List (List Char × ApiMethodStats)
  apiLatencyStats : List (List Char × ApiLatencyStats)
  serviceLatencyStats : List (List Char × ServiceLatencyStats)
  serviceMethodStats : List (List Char × ServiceMethodStats)
  metricsCache : List (List Char × MetricData)
  cachedEventCount : Nat
  reportingStartTime : Nat
  bootstrapPluginsLoaded : Nat
  totalBootstrapTimeMs : Nat
deriving DecidableEq, Repr

/-- A telemetry state as right after `Initialize`: defaults from the
constructor, empty aggregation maps, zero counters. -/
def initialTelState : TelState where
  initialized := true
  reportingIntervalSec := 30
  cacheThreshold := 1000
  websocketConnections := 0
  totalCalls := 0
  successfulCalls := 0
  failedCalls := 0
  apiErrorCounts := []
  extServiceErrorCounts := []
  apiMethodStats := []
  apiLatencyStats := []
  serviceLatencyStats := []
  serviceMethodStats := []
  metricsCache := []
  cachedEventCount := 0
  reportingStartTime := 0
  bootstrapPluginsLoaded := 0
  totalBootstrapTimeMs := 0

/-- Embeds `AppGatewayTelemetry::IncrementWebSocketConnections`
(`uint32_t fetch_add`, wrapping). -/
def incrementWebSocketConnections (g : ℤ) : ℤ := (g + 1) % (2 ^ 32)

/-- Embeds `AppGatewayTelemetry::DecrementWebSocketConnections`
(guarded `fetch_sub`: a no-op when the gauge is zero). -/
def decrementWebSocketConnections (g : ℤ) : ℤ := if 0 < g then g - 1 else g

/-- Embeds `AppGatewayTelemetry::RecordApiError`. -/
def telRecordApiError (apiName : List Char) (st : TelState) : TelState :=
  let n := (lookupAssoc st.apiErrorCounts apiName).getD 0 + 1
  { st with apiErrorCounts := insertAssoc st.apiErrorCounts apiName n }

/-- Embeds `AppGatewayTelemetry::RecordExternalServiceErrorInternal`. -/
def telRecordExternalServiceError (serviceName : List Char) (st : TelState) : TelState :=
  let n := (lookupAssoc st.extServiceErrorCounts serviceName).getD 0 + 1
  { st with extServiceErrorCounts := insertAssoc st.extServiceErrorCounts serviceName n }

/-- The per-bucket update performed by `RecordApiMethodMetric` on an
`ApiMethodStats` value. -/
def apiMethodStatsUpdate (latencyMs : ℚ) (isError : Bool) (s : ApiMethodStats) :
    ApiMethodStats :=
  if isError then
    { s with
      errorCount := s.errorCount + 1
      totalErrorLatencyMs := s.totalErrorLatencyMs + latencyMs
      minErrorLatencyMs :=
        if latencyMs < s.minErrorLatencyMs then latencyMs else s.minErrorLatencyMs
      maxErrorLatencyMs :=
        if latencyMs > s.maxErrorLatencyMs then latencyMs else s.maxErrorLatencyMs }
  else
    { s with
      successCount := s.successCount + 1
      totalSuccessLatencyMs := s.totalSuccessLatencyMs + latencyMs
      minSuccessLatencyMs :=
        if latencyMs < s.minSuccessLatencyMs then latencyMs else s.minSuccessLatencyMs
      maxSuccessLatencyMs :=
        if latencyMs > s.maxSuccessLatencyMs then latencyMs else s.maxSuccessLatencyMs }

/-- Embeds `AppGatewayTelemetry::RecordApiMethodMetric`. -/
def telRecordApiMethodMetric (pluginName methodName : List Char) (latencyMs : ℚ)
    (isError : Bool) (st : TelState) : TelState :=
  let apiKey := pluginName ++ ['_'] ++ methodName
  let stats := (lookupAssoc st.apiMethodStats apiKey).getD {}
  let stats :=
    if stats.pluginName = [] then
      { stats with pluginName := pluginName, methodName := methodName }
    else stats
  let stats := apiMethodStatsUpdate latencyMs isError stats
  { st with
    apiMethodStats := insertAssoc st.apiMethodStats apiKey stats
    cachedEventCount := st.cachedEventCount + 1 }

/-- Embeds `AppGatewayTelemetry::RecordApiLatencyMetric`. -/
def telRecordApiLatencyMetric (pluginName apiName : List Char) (latencyMs : ℚ)
    (st : TelState) : TelState :=
  let latencyKey := pluginName ++ ['_'] ++ apiName
  let stats := (lookupAssoc st.apiLatencyStats latencyKey).getD {}
  let stats :=
    if stats.pluginName = [] then
      { stats with pluginName := pluginName, apiName := apiName }
    else stats
  let stats :=
    { stats with
      count := stats.count + 1
      totalLatencyMs := stats.totalLatencyMs + latencyMs
      minLatencyMs := if latencyMs < stats.minLatencyMs then latencyMs else stats.minLatencyMs
      maxLatencyMs := if latencyMs > stats.maxLatencyMs then latencyMs else stats.maxLatencyMs }
  { st with
    apiLatencyStats := insertAssoc st.apiLatencyStats latencyKey stats
    cachedEventCount := st.cachedEventCount + 1 }

/-- Embeds `AppGatewayTelemetry::RecordServiceLatencyMetric`. -/
def telRecordServiceLatencyMetric (pluginName serviceName : List Char) (latencyMs : ℚ)
    (st : TelState) : TelState :=
  let latencyKey := pluginName ++ ['_'] ++ serviceName
  let stats := (lookupAssoc st.serviceLatencyStats latencyKey).getD {}
  let stats :=
    if stats.pluginName = [] then
      { stats with pluginName := pluginName, serviceName := serviceName }
    else stats
  let stats :=
    { stats with
      count := stats.count + 1
      totalLatencyMs := stats.totalLatencyMs + latencyMs
      minLatencyMs := if latencyMs < stats.minLatencyMs then latencyMs else stats.minLatencyMs
      maxLatencyMs := if latencyMs > stats.maxLatencyMs then latencyMs else stats.maxLatencyMs }
  { st with
    serviceLatencyStats := insertAssoc st.serviceLatencyStats latencyKey stats
    cachedEventCount := st.cachedEventCount + 1 }

/-- The per-bucket update performed by `RecordServiceMethodMetric`. -/
def serviceMethodStatsUpdate (latencyMs : ℚ) (isError : Bool) (s : ServiceMethodStats) :
    ServiceMethodStats :=
  if isError then
    { s with
      errorCount := s.errorCount + 1
      totalErrorLatencyMs := s.totalErrorLatencyMs + latencyMs
      minErrorLatencyMs :=
        if latencyMs < s.minErrorLatencyMs then latencyMs else s.minErrorLatencyMs
      maxErrorLatencyMs :=
        if latencyMs > s.maxErrorLatencyMs then latencyMs else s.maxErrorLatencyMs }
  else
    { s with
      successCount := s.successCount + 1
      totalSuccessLatencyMs := s.totalSuccessLatencyMs + latencyMs
      minSuccessLatencyMs :=
        if latencyMs < s.minSuccessLatencyMs then latencyMs else s.minSuccessLatencyMs
      maxSuccessLatencyMs :=
        if latencyMs > s.maxSuccessLatencyMs then latencyMs else s.maxSuccessLatencyMs }

/-- Embeds `AppGatewayTelemetry::RecordServiceMethodMetric`. -/
def telRecordServiceMethodMetric (pluginName serviceName : List Char) (latencyMs : ℚ)
    (isError : Bool) (st : TelState) : TelState :=
  let serviceKey := pluginName ++ ['_'] ++ serviceName
  let stats := (lookupAssoc st.serviceMethodStats serviceKey).getD {}
  let stats :=
    if stats.pluginName = [] then
      { stats with pluginName := pluginName, serviceName := serviceName }
    else stats
  let stats := serviceMethodStatsUpdate latencyMs isError stats
  { st with
    serviceMethodStats := insertAssoc st.serviceMethodStats serviceKey stats
    cachedEventCount := st.cachedEventCount + 1 }

/-- Embeds `AppGatewayTelemetry::RecordGenericMetric`. -/
def telRecordGenericMetric (metricName : List Char) (metricValue : ℚ)
    (metricUnit : List Char) (st : TelState) : TelState :=
  let data := (lookupAssoc st.metricsCache metricName).getD {}
  let data :=
    { data with
      sum := data.sum + metricValue
      count := data.count + 1
      min := if metricValue < data.min then metricValue else data.min
      max := if metricValue > data.max then metricValue else data.max
      unit := if data.unit = [] then metricUnit else data.unit }
  { st with
    metricsCache := insertAssoc st.metricsCache metricName data
    cachedEventCount := st.cachedEventCount + 1 }

/-- Embeds `AppGatewayTelemetry::RecordBootstrapTime`: bumps the (wrapping)
cumulative counters, then records the new totals as generic metrics. -/
def telRecordBootstrapTime (durationMs : Nat) (st : TelState) : TelState :=
  let pluginCount : Nat := (st.bootstrapPluginsLoaded + 1) % 2 ^ 32
  let totalTime : Nat := (st.totalBootstrapTimeMs + durationMs) % 2 ^ 64
  let st := { st with bootstrapPluginsLoaded := pluginCount, totalBootstrapTimeMs := totalTime }
  let st :=
    telRecordGenericMetric AGW_MARKER_BOOTSTRAP_DURATION (totalTime : ℚ) AGW_UNIT_MILLISECONDS st
  telRecordGenericMetric AGW_MARKER_BOOTSTRAP_PLUGIN_COUNT (pluginCount : ℚ) AGW_UNIT_COUNT st

/-- Embeds `AppGatewayTelemetry::FlushTelemetryData` restricted to its state
effect: the `Send*` calls only read the state, then the interval counters
and aggregation maps are reset and the reporting start time becomes the
current instant `now`. `ResetHealthStats` leaves the gauge untouched. -/
def flushTelemetryData (now : Nat) (st : TelState) : TelState :=
  { st with
    totalCalls := 0
    successfulCalls := 0
    failedCalls := 0
    apiMethodStats := []
    apiLatencyStats := []
    serviceLatencyStats := []
    serviceMethodStats := []
    apiErrorCounts := []
    extServiceErrorCounts := []
    metricsCache := []
    cachedEventCount := 0
    reportingStartTime := now }

/-! ### Metric-name parsers (AppGatewayTelemetry.cpp) -/

/-- Embeds `AppGatewayTelemetry::ParseApiMetricName`: on success returns
`(pluginName, methodName, isError)`. -/
def parseApiMetricName (metricName : List Char) :
    Option (List Char × List Char × Bool) :=
  let successSfx := "_Success_split".data
  let errorSfx := "_Error_split".data
  let pfx := "AppGw_PluginName_".data
  let methodTag := "_MethodName_".data
  let sfxInfo : Option (Bool × Nat) :=
    if metricName.length > successSfx.length ∧
        metricName.drop (metricName.length - successSfx.length) = successSfx then
      some (false, successSfx.length)
    else if metricName.length > errorSfx.length ∧
        metricName.drop (metricName.length - errorSfx.length) = errorSfx then
      some (true, errorSfx.length)
    else none
  match sfxInfo with
  | none => none
  | some (isError, sfxLen) =>
    if metricName.length ≤ pfx.length ∨ metricName.take pfx.length ≠ pfx then none
    else
      let middle := (metricName.drop pfx.length).take (metricName.length - pfx.length - sfxLen)
      match findSub methodTag middle with
      | none => none
      | some methodTagPos =>
        if methodTagPos = 0 then none
        else
          let pluginName := middle.take methodTagPos
          let methodName := middle.drop (methodTagPos + methodTag.length)
          if pluginName = [] ∨ methodName = [] then none
          else some (pluginName, methodName, isError)

/-- Embeds `AppGatewayTelemetry::ParseApiLatencyMetricName`: on success returns
`(pluginName, apiName)`. -/
def parseApiLatencyMetricName (metricName : List Char) :
    Option (List Char × List Char) :=
  let sfx := "_ApiLatency_split".data
  let pfx := "AppGw_PluginName_".data
  let apiTag := "_ApiName_".data
  if metricName.length ≤ sfx.length ∨
      metricName.drop (metricName.length - sfx.length) ≠ sfx then none
  else if metricName.length ≤ pfx.length ∨ metricName.take pfx.length ≠ pfx then none
  else
    let middle := (metricName.drop pfx.length).take (metricName.length - pfx.length - sfx.length)
    match findSub apiTag middle with
    | none => none
    | some apiTagPos =>
      if apiTagPos = 0 then none
      else
        let pluginName := middle.take apiTagPos
        let apiName := middle.drop (apiTagPos + apiTag.length)
        if pluginName = [] ∨ apiName = [] then none
        else some (pluginName, apiName)

/-- Embeds `AppGatewayTelemetry::ParseServiceLatencyMetricName`: on success
returns `(pluginName, serviceName)`. -/
def parseServiceLatencyMetricName (metricName : List Char) :
    Option (List Char × List Char) :=
  let sfx := "_ServiceLatency_split".data
  let pfx := "AppGw_PluginName_".data
  let serviceTag := "_ServiceName_".data
  if metricName.length ≤ sfx.length ∨
      metricName.drop (metricName.length - sfx.length) ≠ sfx then none
  else if metricName.length ≤ pfx.length ∨ metricName.take pfx.length ≠ pfx then none
  else
    let middle := (metricName.drop pfx.length).take (metricName.length - pfx.length - sfx.length)
    match findSub serviceTag middle with
    | none => none
    | some serviceTagPos =>
      if serviceTagPos = 0 then none
      else
        let pluginName := middle.take serviceTagPos
        let serviceName := middle.drop (serviceTagPos + serviceTag.length)
        if pluginName = [] ∨ serviceName = [] then none
        else some (pluginName, serviceName)

/-- Embeds `AppGatewayTelemetry::ParseServiceMetricName`: on success returns
`(pluginName, serviceName, isError)`. -/
def parseServiceMetricName (metricName : List Char) :
    Option (List Char × List Char × Bool) :=
  let successSfx := "_Success_split".data
  let errorSfx := "_Error_split".data
  let pfx := "AppGw_PluginName_".data
  let serviceTag := "_ServiceName_".data
  let sfxInfo : Option (Bool × Nat) :=
    if metricName.length > successSfx.length ∧
        metricName.drop (metricName.length - successSfx.length) = successSfx then
      some (false, successSfx.length)
    else if metricName.length > errorSfx.length ∧
        metricName.drop (metricName.length - errorSfx.length) = errorSfx then
      some (true, errorSfx.length)
    else none
  match sfxInfo with
  | none => none
  | some (isError, sfxLen) =>
    if metricName.length ≤ pfx.length ∨ metricName.take pfx.length ≠ pfx then none
    else
      let middle := (metricName.drop pfx.length).take (metricName.length - pfx.length - sfxLen)
      match findSub serviceTag middle with
      | none => none
      | some serviceTagPos =>
        if serviceTagPos = 0 then none
        else
          let pluginName := middle.take serviceTagPos
          let serviceName := middle.drop (serviceTagPos + serviceTag.length)
          if pluginName = [] ∨ serviceName = [] then none
          else some (pluginName, serviceName, isError)

/-! ### Public record entry points -/

/-- Embeds `AppGatewayTelemetry::RecordTelemetryMetric`. `now` is the steady-clock
instant used if the cache-threshold flush triggers. -/
def recordTelemetryMetric (st : TelState) (metricName : List Char) (metricValue : ℚ)
    (metricUnit : List Char) (now : Nat) : TelState × Hres :=
  if st.initialized = false then (st, .errorUnavailable)
  else if metricName = AGW_MARKER_BOOTSTRAP_DURATION then
    (telRecordBootstrapTime (qToU64 metricValue) st, .errorNone)
  else
    let st :=
      match parseApiMetricName metricName with
      | some (p, m, isError) => telRecordApiMethodMetric p m metricValue isError st
      | none =>
        match parseServiceMetricName metricName with
        | some (p, s, isError) => telRecordServiceMethodMetric p s metricValue isError st
        | none =>
          match parseApiLatencyMetricName metricName with
          | some (p, a) => telRecordApiLatencyMetric p a metricValue st
          | none =>
            match parseServiceLatencyMetricName metricName with
            | some (p, s) => telRecordServiceLatencyMetric p s metricValue st
            | none => telRecordGenericMetric metricName metricValue metricUnit st
    if st.cachedEventCount ≥ st.cacheThreshold then (flushTelemetryData now st, .errorNone)
    else (st, .errorNone)

/-- Embeds `AppGatewayTelemetry::RecordTelemetryEvent`. The JSON field extraction
performed by the framework's `JsonObject` (external to this repository) is
abstracted as `getField eventData label`; the immediate T2 forwards are
returned as the list of `(marker, payload)` pairs. -/
def recordTelemetryEvent
    (getField : List Char → List Char → Option (List Char))
    (st : TelState) (eventName eventData : List Char) (now : Nat) :
    TelState × Hres × List (List Char × List Char) :=
  if st.initialized = false then (st, .errorUnavailable, [])
  else if eventName = AGW_MARKER_PLUGIN_API_ERROR then
    let apiName := (getField eventData "api".data).getD eventName
    (telRecordApiError apiName st, .errorNone, [(eventName, eventData)])
  else if eventName = AGW_MARKER_PLUGIN_EXT_SERVICE_ERROR then
    let serviceName := (getField eventData "service".data).getD eventName
    (telRecordExternalServiceError serviceName st, .errorNone, [(eventName, eventData)])
  else
    let st := { st with cachedEventCount := st.cachedEventCount + 1 }
    if st.cachedEventCount ≥ st.cacheThreshold then (flushTelemetryData now st, .errorNone, [])
    else (st, .errorNone, [])

/-! ### Emission of API method stats (`SendApiMethodStats`) -/

/-- The fields of the per-bucket payload emitted by `SendApiMethodStats`.
Latency fields are `none` when the corresponding count is zero (the JSON
then carries only the zero count). -/
structure ApiMethodPayload where
  pluginName : List Char
  methodName : List Char
  successCount : Nat
  successLatencyAvgMs : Option ℚ
  successLatencyMinMs : Option ℚ
  successLatencyMaxMs : Option ℚ
  errorCount : Nat
  errorLatencyAvgMs : Option ℚ
  errorLatencyMinMs : Option ℚ
  errorLatencyMaxMs : Option ℚ
  totalCount : Nat
deriving DecidableEq, Repr

/-- The payload `SendApiMethodStats` builds for one `ApiMethodStats`
bucket, sentinel replacement included. -/
def mkApiMethodPayload (s : ApiMethodStats) : ApiMethodPayload where
  pluginName := s.pluginName
  methodName := s.methodName
  successCount := s.successCount
  successLatencyAvgMs :=
    if s.successCount > 0 then some (s.totalSuccessLatencyMs / s.successCount) else none
  successLatencyMinMs :=
    if s.successCount > 0 then
      some (if s.minSuccessLatencyMs = dblMax then 0 else s.minSuccessLatencyMs)
    else none
  successLatencyMaxMs :=
    if s.successCount > 0 then
      some (if s.maxSuccessLatencyMs = dblLowest then 0 else s.maxSuccessLatencyMs)
    else none
  errorCount := s.errorCount
  errorLatencyAvgMs :=
    if s.errorCount > 0 then some (s.totalErrorLatencyMs / s.errorCount) else none
  errorLatencyMinMs :=
    if s.errorCount > 0 then
      some (if s.minErrorLatencyMs = dblMax then 0 else s.minErrorLatencyMs)
    else none
  errorLatencyMaxMs :=
    if s.errorCount > 0 then
      some (if s.maxErrorLatencyMs = dblLowest then 0 else s.maxErrorLatencyMs)
    else none
  totalCount := s.successCount + s.errorCount

/-- Embeds `AppGatewayTelemetry::SendApiMethodStats`: one payload per bucket,
buckets with no samples skipped. -/
def sendApiMethodStats (st : TelState) : List ApiMethodPayload :=
  st.apiMethodStats.filterMap fun kv =>
    if kv.2.successCount = 0 ∧ kv.2.errorCount = 0 then none
    else some (mkApiMethodPayload kv.2)

/-- The two gauge operations on the websocket-connections counter. -/
inductive WsGaugeOp where
  | inc
  | dec
deriving DecidableEq, Repr

/-- One gauge operation applied to the current gauge value. -/
def wsGaugeStep (g : ℤ) : WsGaugeOp → ℤ
  | .inc => incrementWebSocketConnections g
  | .dec => decrementWebSocketConnections g

/-- Running minimum as computed by the `if (latencyMs < stats.min) stats.min = latencyMs`
update, folded over a sample list. -/
def foldMin (m : ℚ) (xs : List ℚ) : ℚ :=
  xs.foldl (fun a x => if x < a then x else a) m

/-- Running maximum as computed by the `if (latencyMs > stats.max) stats.max = latencyMs`
update, folded over a sample list. -/
def foldMax (m : ℚ) (xs : List ℚ) : ℚ :=
  xs.foldl (fun a x => if x > a then x else a) m

/-- A success-sample series recorded into one `(plugin, method)` bucket
through `RecordApiMethodMetric`, starting from a given telemetry state. -/
def recordSuccessSeries (pluginName methodName : List Char) (samples : List ℚ)
    (st : TelState) : TelState :=
  samples.foldl (fun s v => telRecordApiMethodMetric pluginName methodName v false s) st

end AppGateway

namespace AppGateway

/-! ## Helper lemmas -/

theorem findSub_of_isPrefixOf {t l : List Char} (h : t.isPrefixOf l) :
    findSub t l = some 0 := by
  cases l <;> simp [findSub, h]

theorem findSub_single_eq_none {c : Char} {l : List Char} (h : c ∉ l) :
    findSub [c] l = none := by
  induction l with
  | nil => simp [findSub, List.isPrefixOf]
  | cons x xs ih =>
    have h1 : c ≠ x := fun hc => h (hc ▸ List.mem_cons_self x xs)
    have h2 : c ∉ xs := fun hc => h (List.mem_cons_of_mem x hc)
    simp [findSub, List.isPrefixOf, ih h2, h1]

theorem wsGauge_fold_inRange (ops : List WsGaugeOp) :
    ∀ g : ℤ, 0 ≤ g → g < 2 ^ 32 →
      0 ≤ ops.foldl wsGaugeStep g ∧ ops.foldl wsGaugeStep g < 2 ^ 32 := by
  induction ops with
  | nil => intro g h1 h2; exact ⟨h1, h2⟩
  | cons op ops ih =>
    intro g h1 h2
    have hstep : 0 ≤ wsGaugeStep g op ∧ wsGaugeStep g op < 2 ^ 32 := by
      cases op with
      | inc =>
        refine ⟨Int.emod_nonneg _ (by norm_num), Int.emod_lt_of_pos _ (by norm_num)⟩
      | dec =>
        simp only [wsGaugeStep, decrementWebSocketConnections]
        split <;> omega
    exact ih (wsGaugeStep g op) hstep.1 hstep.2

theorem foldMin_cons (m x : ℚ) (xs : List ℚ) :
    foldMin m (x :: xs) = foldMin (if x < m then x else m) xs := rfl

theorem foldMax_cons (m x : ℚ) (xs : List ℚ) :
    foldMax m (x :: xs) = foldMax (if x > m then x else m) xs := rfl

theorem foldMin_le_init (xs : List ℚ) : ∀ m, foldMin m xs ≤ m := by
  induction xs with
  | nil => intro m; exact le_rfl
  | cons x xs ih =>
    intro m
    rw [foldMin_cons]
    refine le_trans (ih _) ?_
    by_cases hx : x < m <;> simp [hx]
    exact le_of_lt hx

theorem foldMin_le_mem (xs : List ℚ) : ∀ m, ∀ y ∈ xs, foldMin m xs ≤ y := by
  induction xs with
  | nil => intro m y hy; cases hy
  | cons x xs ih =>
    intro m y hy
    rcases List.mem_cons.mp hy with rfl | hy
    · rw [foldMin_cons]
      refine le_trans (foldMin_le_init xs _) ?_
      by_cases hx : y < m <;> simp [hx]
      exact le_of_not_lt hx
    · exact ih _ y hy

theorem foldMin_mem_or (xs : List ℚ) : ∀ m, foldMin m xs ∈ xs ∨ foldMin m xs = m := by
  induction xs with
  | nil => intro m; exact Or.inr rfl
  | cons x xs ih =>
    intro m
    rw [foldMin_cons]
    rcases ih (if x < m then x else m) with h | h
    · exact Or.inl (List.mem_cons_of_mem x h)
    · rw [h]
      by_cases hx : x < m <;> simp [hx]

theorem foldMax_ge_init (xs : List ℚ) : ∀ m, m ≤ foldMax m xs := by
  induction xs with
  | nil => intro m; exact le_rfl
  | cons x xs ih =>
    intro m
    rw [foldMax_cons]
    refine le_trans ?_ (ih _)
    by_cases hx : x > m <;> simp [hx]
    exact le_of_lt hx

theorem foldMax_ge_mem (xs : List ℚ) : ∀ m, ∀ y ∈ xs, y ≤ foldMax m xs := by
  induction xs with
  | nil => intro m y hy; cases hy
  | cons x xs ih =>
    intro m y hy
    rcases List.mem_cons.mp hy with rfl | hy
    · rw [foldMax_cons]
      refine le_trans ?_ (foldMax_ge_init xs _)
      by_cases hx : y > m <;> simp [hx]
      exact le_of_not_lt hx
    · exact ih _ y hy

theorem foldMax_mem_or (xs : List ℚ) : ∀ m, foldMax m xs ∈ xs ∨ foldMax m xs = m := by
  induction xs with
  | nil => intro m; exact Or.inr rfl
  | cons x xs ih =>
    intro m
    rw [foldMax_cons]
    rcases ih (if x > m then x else m) with h | h
    · exact Or.inl (List.mem_cons_of_mem x h)
    · rw [h]
      by_cases hx : x > m <;> simp [hx]

theorem length_mul_le_sum (xs : List ℚ) (b : ℚ) (h : ∀ x ∈ xs, b ≤ x) :
    (xs.length : ℚ) * b ≤ xs.sum := by
  induction xs with
  | nil => simp
  | cons x xs ih =>
    have hx := h x (List.mem_cons_self x xs)
    have hxs := ih fun y hy => h y (List.mem_cons_of_mem x hy)
    simp only [List.sum_cons, List.length_cons]
    push_cast
    nlinarith

theorem sum_le_length_mul (xs : List ℚ) (b : ℚ) (h : ∀ x ∈ xs, x ≤ b) :
    xs.sum ≤ (xs.length : ℚ) * b := by
  induction xs with
  | nil => simp
  | cons x xs ih =>
    have hx := h x (List.mem_cons_self x xs)
    have hxs := ih fun y hy => h y (List.mem_cons_of_mem x hy)
    simp only [List.sum_cons, List.length_cons]
    push_cast
    nlinarith

theorem apiMethodStatsUpdate_names (v : ℚ) (e : Bool) (s : ApiMethodStats) :
    (apiMethodStatsUpdate v e s).pluginName = s.pluginName ∧
    (apiMethodStatsUpdate v e s).methodName = s.methodName := by
  cases e <;> simp [apiMethodStatsUpdate]

theorem bucketFold_success (samples : List ℚ) : ∀ s : ApiMethodStats,
    (samples.foldl (fun a v => apiMethodStatsUpdate v false a) s).pluginName
        = s.pluginName ∧
    (samples.foldl (fun a v => apiMethodStatsUpdate v false a) s).methodName
        = s.methodName ∧
    (samples.foldl (fun a v => apiMethodStatsUpdate v false a) s).successCount
        = s.successCount + samples.length ∧
    (samples.foldl (fun a v => apiMethodStatsUpdate v false a) s).errorCount
        = s.errorCount ∧
    (samples.foldl (fun a v => apiMethodStatsUpdate v false a) s).totalSuccessLatencyMs
        = s.totalSuccessLatencyMs + samples.sum ∧
    (samples.foldl (fun a v => apiMethodStatsUpdate v false a) s).minSuccessLatencyMs
        = foldMin s.minSuccessLatencyMs samples ∧
    (samples.foldl (fun a v => apiMethodStatsUpdate v false a) s).maxSuccessLatencyMs
        = foldMax s.maxSuccessLatencyMs samples := by
  induction samples with
  | nil =>
    intro s
    refine ⟨rfl, rfl, rfl, rfl, by simp, rfl, rfl⟩
  | cons v vs ih =>
    intro s
    have hupd : apiMethodStatsUpdate v false s
        = { s with
            successCount := s.successCount + 1
            totalSuccessLatencyMs := s.totalSuccessLatencyMs + v
            minSuccessLatencyMs :=
              if v < s.minSuccessLatencyMs then v else s.minSuccessLatencyMs
            maxSuccessLatencyMs :=
              if v > s.maxSuccessLatencyMs then v else s.maxSuccessLatencyMs } := by
      simp [apiMethodStatsUpdate]
    rw [List.foldl_cons, hupd]
    obtain ⟨h1, h2, h3, h4, h5, h6, h7⟩ := ih
      { s with
        successCount := s.successCount + 1
        totalSuccessLatencyMs := s.totalSuccessLatencyMs + v
        minSuccessLatencyMs :=
          if v < s.minSuccessLatencyMs then v else s.minSuccessLatencyMs
        maxSuccessLatencyMs :=
          if v > s.maxSuccessLatencyMs then v else s.maxSuccessLatencyMs }
    refine ⟨h1, h2, by rw [h3]; simp; omega, h4, by rw [h5]; simp; ring,
      by rw [h6, foldMin_cons], by rw [h7, foldMax_cons]⟩

theorem drop_len_sub_self (X s : List Char) :
    (X ++ s).drop ((X ++ s).length - s.length) = s := by
  rw [List.length_append]
  have h : X.length + s.length - s.length = X.length := by omega
  rw [h, List.drop_left]

theorem drop_len_sub_ne_long (X s t : List Char) (k : Nat)
    (hk : s.length + k = t.length) (hX : k ≤ X.length)
    (hne : s ≠ t.drop k) :
    (X ++ s).drop ((X ++ s).length - t.length) ≠ t := by
  intro h
  have h2 := congrArg (List.drop k) h
  rw [List.drop_drop] at h2
  have harith : (X ++ s).length - t.length + k = X.length := by
    rw [List.length_append]; omega
  rw [harith, List.drop_left] at h2
  exact hne h2

theorem drop_len_sub_ne_short (X s t : List Char) (k : Nat)
    (hk : t.length + k = s.length)
    (hne : s.drop k ≠ t) :
    (X ++ s).drop ((X ++ s).length - t.length) ≠ t := by
  have harith : (X ++ s).length - t.length = X.length + k := by
    rw [List.length_append]; omega
  rw [harith, ← List.drop_drop, List.drop_left]
  exact hne

theorem middle_extract (pre mid sfx : List Char) :
    ((pre ++ mid ++ sfx).drop pre.length).take
        ((pre ++ mid ++ sfx).length - pre.length - sfx.length) = mid := by
  rw [List.append_assoc, List.drop_left]
  have h : (pre ++ (mid ++ sfx)).length - pre.length - sfx.length = mid.length := by
    simp only [List.length_append]; omega
  rw [h, List.take_left]

theorem drop_nested (a b c : List Char) :
    (a ++ (b ++ c)).drop (a.length + b.length) = c := by
  rw [← List.drop_drop, List.drop_left, List.drop_left]

theorem take_pfx_append (pre mid sfx : List Char) :
    (pre ++ mid ++ sfx).take pre.length = pre := by
  rw [List.append_assoc, List.take_left]

theorem telRecordApiMethodMetric_singleton (P M : List Char) (hP : P ≠ []) (v : ℚ)
    (st : TelState) (s : ApiMethodStats)
    (hmap : st.apiMethodStats = [(P ++ ['_'] ++ M, s)]) (hname : s.pluginName = P) :
    (telRecordApiMethodMetric P M v false st).apiMethodStats
      = [(P ++ ['_'] ++ M, apiMethodStatsUpdate v false s)] := by
  have hsname : ¬(s.pluginName = []) := by rw [hname]; exact hP
  simp [telRecordApiMethodMetric, hmap, lookupAssoc, insertAssoc, hsname]

theorem recordSuccessSeries_singleton (P M : List Char) (hP : P ≠ [])
    (samples : List ℚ) :
    ∀ (st : TelState) (s : ApiMethodStats),
      st.apiMethodStats = [(P ++ ['_'] ++ M, s)] → s.pluginName = P →
      (recordSuccessSeries P M samples st).apiMethodStats
        = [(P ++ ['_'] ++ M,
            samples.foldl (fun a v => apiMethodStatsUpdate v false a) s)] := by
  induction samples with
  | nil =>
    intro st s hmap _
    simpa [recordSuccessSeries] using hmap
  | cons v vs ih =>
    intro st s hmap hname
    have h1 := telRecordApiMethodMetric_singleton P M hP v st s hmap hname
    have hname1 : (apiMethodStatsUpdate v false s).pluginName = P :=
      (apiMethodStatsUpdate_names v false s).1.trans hname
    have h2 := ih (telRecordApiMethodMetric P M v false st)
      (apiMethodStatsUpdate v false s) h1 hname1
    simpa [recordSuccessSeries, List.foldl_cons] using h2

theorem telRecordApiMethodMetric_initial (P M : List Char) (v : ℚ) :
    (telRecordApiMethodMetric P M v false initialTelState).apiMethodStats
      = [(P ++ ['_'] ++ M,
          apiMethodStatsUpdate v false { pluginName := P, methodName := M })] := by
  simp [telRecordApiMethodMetric, initialTelState, lookupAssoc, insertAssoc]

theorem parseApiMetricName_mkSuccess (P M : List Char) (hP : P ≠ []) (hM : M ≠ [])
    (hsplit : findSub "_MethodName_".data (P ++ ("_MethodName_".data ++ M))
      = some P.length) :
    parseApiMetricName
        ("AppGw_PluginName_".data ++ (P ++ ("_MethodName_".data ++ M)) ++
          "_Success_split".data)
      = some (P, M, false) := by
  have l1 : ("AppGw_PluginName_".data).length = 17 := rfl
  have l2 : ("_MethodName_".data).length = 12 := rfl
  have l3 : ("_Success_split".data).length = 14 := rfl
  have hnlen : ("AppGw_PluginName_".data ++ (P ++ ("_MethodName_".data ++ M)) ++
      "_Success_split".data).length = 17 + (P.length + (12 + M.length)) + 14 := by
    simp only [List.length_append, l1, l2, l3]
  have hc1 : ("AppGw_PluginName_".data ++ (P ++ ("_MethodName_".data ++ M)) ++
        "_Success_split".data).length > ("_Success_split".data).length ∧
      ("AppGw_PluginName_".data ++ (P ++ ("_MethodName_".data ++ M)) ++
        "_Success_split".data).drop
        (("AppGw_PluginName_".data ++ (P ++ ("_MethodName_".data ++ M)) ++
          "_Success_split".data).length - ("_Success_split".data).length)
        = "_Success_split".data :=
    ⟨by rw [hnlen, l3]; omega, drop_len_sub_self _ _⟩
  have hc2 : ¬(("AppGw_PluginName_".data ++ (P ++ ("_MethodName_".data ++ M)) ++
        "_Success_split".data).length ≤ ("AppGw_PluginName_".data).length ∨
      ("AppGw_PluginName_".data ++ (P ++ ("_MethodName_".data ++ M)) ++
        "_Success_split".data).take ("AppGw_PluginName_".data).length
        ≠ "AppGw_PluginName_".data) :=
    not_or.mpr ⟨by rw [hnlen, l1]; omega, fun h => h (take_pfx_append _ _ _)⟩
  have hpos : ¬(P.length = 0) := fun h => hP (List.length_eq_zero.mp h)
  have hnonempty : ¬(P = [] ∨ M = []) := not_or.mpr ⟨hP, hM⟩
  simp only [parseApiMetricName]
  rw [if_pos hc1]
  simp only []
  rw [if_neg hc2, middle_extract, hsplit]
  simp only []
  rw [if_neg hpos, List.take_left, drop_nested, if_neg hnonempty]

theorem parseApiMetricName_mkError (P M : List Char) (hP : P ≠ []) (hM : M ≠ [])
    (hsplit : findSub "_MethodName_".data (P ++ ("_MethodName_".data ++ M))
      = some P.length) :
    parseApiMetricName
        ("AppGw_PluginName_".data ++ (P ++ ("_MethodName_".data ++ M)) ++
          "_Error_split".data)
      = some (P, M, true) := by
  have l1 : ("AppGw_PluginName_".data).length = 17 := rfl
  have l3 : ("_Error_split".data).length = 12 := rfl
  have hXlen : ("AppGw_PluginName_".data ++ (P ++ ("_MethodName_".data ++ M))).length
      = 17 + (P.length + (12 + M.length)) := by
    simp only [List.length_append]
    rfl
  have hnlen : ("AppGw_PluginName_".data ++ (P ++ ("_MethodName_".data ++ M)) ++
      "_Error_split".data).length = 17 + (P.length + (12 + M.length)) + 12 := by
    rw [List.length_append, hXlen, l3]
  have hcs : ¬(("AppGw_PluginName_".data ++ (P ++ ("_MethodName_".data ++ M)) ++
        "_Error_split".data).length > ("_Success_split".data).length ∧
      ("AppGw_PluginName_".data ++ (P ++ ("_MethodName_".data ++ M)) ++
        "_Error_split".data).drop
        (("AppGw_PluginName_".data ++ (P ++ ("_MethodName_".data ++ M)) ++
          "_Error_split".data).length - ("_Success_split".data).length)
        = "_Success_split".data) :=
    fun h => drop_len_sub_ne_long _ _ _ 2 (by decide) (by rw [hXlen]; omega)
      (by decide) h.2
  have hc1 : ("AppGw_PluginName_".data ++ (P ++ ("_MethodName_".data ++ M)) ++
        "_Error_split".data).length > ("_Error_split".data).length ∧
      ("AppGw_PluginName_".data ++ (P ++ ("_MethodName_".data ++ M)) ++
        "_Error_split".data).drop
        (("AppGw_PluginName_".data ++ (P ++ ("_MethodName_".data ++ M)) ++
          "_Error_split".data).length - ("_Error_split".data).length)
        = "_Error_split".data :=
    ⟨by rw [hnlen, l3]; omega, drop_len_sub_self _ _⟩
  have hc2 : ¬(("AppGw_PluginName_".data ++ (P ++ ("_MethodName_".data ++ M)) ++
        "_Error_split".data).length ≤ ("AppGw_PluginName_".data).length ∨
      ("AppGw_PluginName_".data ++ (P ++ ("_MethodName_".data ++ M)) ++
        "_Error_split".data).take ("AppGw_PluginName_".data).length
        ≠ "AppGw_PluginName_".data) :=
    not_or.mpr ⟨by rw [hnlen, l1]; omega, fun h => h (take_pfx_append _ _ _)⟩
  have hpos : ¬(P.length = 0) := fun h => hP (List.length_eq_zero.mp h)
  have hnonempty : ¬(P = [] ∨ M = []) := not_or.mpr ⟨hP, hM⟩
  simp only [parseApiMetricName]
  rw [if_neg hcs, if_pos hc1]
  simp only []
  rw [if_neg hc2, middle_extract, hsplit]
  simp only []
  rw [if_neg hpos, List.take_left, drop_nested, if_neg hnonempty]

theorem parseServiceMetricName_mkSuccess (P S : List Char) (hP : P ≠ []) (hS : S ≠ [])
    (hsplit : findSub "_ServiceName_".data (P ++ ("_ServiceName_".data ++ S))
      = some P.length) :
    parseServiceMetricName
        ("AppGw_PluginName_".data ++ (P ++ ("_ServiceName_".data ++ S)) ++
          "_Success_split".data)
      = some (P, S, false) := by
  have l1 : ("AppGw_PluginName_".data).length = 17 := rfl
  have l3 : ("_Success_split".data).length = 14 := rfl
  have hnlen : ("AppGw_PluginName_".data ++ (P ++ ("_ServiceName_".data ++ S)) ++
      "_Success_split".data).length = 17 + (P.length + (13 + S.length)) + 14 := by
    simp only [List.length_append]
    rfl
  have hc1 : ("AppGw_PluginName_".data ++ (P ++ ("_ServiceName_".data ++ S)) ++
        "_Success_split".data).length > ("_Success_split".data).length ∧
      ("AppGw_PluginName_".data ++ (P ++ ("_ServiceName_".data ++ S)) ++
        "_Success_split".data).drop
        (("AppGw_PluginName_".data ++ (P ++ ("_ServiceName_".data ++ S)) ++
          "_Success_split".data).length - ("_Success_split".data).length)
        = "_Success_split".data :=
    ⟨by rw [hnlen, l3]; omega, drop_len_sub_self _ _⟩
  have hc2 : ¬(("AppGw_PluginName_".data ++ (P ++ ("_ServiceName_".data ++ S)) ++
        "_Success_split".data).length ≤ ("AppGw_PluginName_".data).length ∨
      ("AppGw_PluginName_".data ++ (P ++ ("_ServiceName_".data ++ S)) ++
        "_Success_split".data).take ("AppGw_PluginName_".data).length
        ≠ "AppGw_PluginName_".data) :=
    not_or.mpr ⟨by rw [hnlen, l1]; omega, fun h => h (take_pfx_append _ _ _)⟩
  have hpos : ¬(P.length = 0) := fun h => hP (List.length_eq_zero.mp h)
  have hnonempty : ¬(P = [] ∨ S = []) := not_or.mpr ⟨hP, hS⟩
  simp only [parseServiceMetricName]
  rw [if_pos hc1]
  simp only []
  rw [if_neg hc2, middle_extract, hsplit]
  simp only []
  rw [if_neg hpos, List.take_left, drop_nested, if_neg hnonempty]

theorem parseServiceMetricName_mkError (P S : List Char) (hP : P ≠ []) (hS : S ≠ [])
    (hsplit : findSub "_ServiceName_".data (P ++ ("_ServiceName_".data ++ S))
      = some P.length) :
    parseServiceMetricName
        ("AppGw_PluginName_".data ++ (P ++ ("_ServiceName_".data ++ S)) ++
          "_Error_split".data)
      = some (P, S, true) := by
  have l1 : ("AppGw_PluginName_".data).length = 17 := rfl
  have l3 : ("_Error_split".data).length = 12 := rfl
  have hXlen : ("AppGw_PluginName_".data ++ (P ++ ("_ServiceName_".data ++ S))).length
      = 17 + (P.length + (13 + S.length)) := by
    simp only [List.length_append]
    rfl
  have hnlen : ("AppGw_PluginName_".data ++ (P ++ ("_ServiceName_".data ++ S)) ++
      "_Error_split".data).length = 17 + (P.length + (13 + S.length)) + 12 := by
    rw [List.length_append, hXlen, l3]
  have hcs : ¬(("AppGw_PluginName_".data ++ (P ++ ("_ServiceName_".data ++ S)) ++
        "_Error_split".data).length > ("_Success_split".data).length ∧
      ("AppGw_PluginName_".data ++ (P ++ ("_ServiceName_".data ++ S)) ++
        "_Error_split".data).drop
        (("AppGw_PluginName_".data ++ (P ++ ("_ServiceName_".data ++ S)) ++
          "_Error_split".data).length - ("_Success_split".data).length)
        = "_Success_split".data) :=
    fun h => drop_len_sub_ne_long _ _ _ 2 (by decide) (by rw [hXlen]; omega)
      (by decide) h.2
  have hc1 : ("AppGw_PluginName_".data ++ (P ++ ("_ServiceName_".data ++ S)) ++
        "_Error_split".data).length > ("_Error_split".data).length ∧
      ("AppGw_PluginName_".data ++ (P ++ ("_ServiceName_".data ++ S)) ++
        "_Error_split".data).drop
        (("AppGw_PluginName_".data ++ (P ++ ("_ServiceName_".data ++ S)) ++
          "_Error_split".data).length - ("_Error_split".data).length)
        = "_Error_split".data :=
    ⟨by rw [hnlen, l3]; omega, drop_len_sub_self _ _⟩
  have hc2 : ¬(("AppGw_PluginName_".data ++ (P ++ ("_ServiceName_".data ++ S)) ++
        "_Error_split".data).length ≤ ("AppGw_PluginName_".data).length ∨
      ("AppGw_PluginName_".data ++ (P ++ ("_ServiceName_".data ++ S)) ++
        "_Error_split".data).take ("AppGw_PluginName_".data).length
        ≠ "AppGw_PluginName_".data) :=
    not_or.mpr ⟨by rw [hnlen, l1]; omega, fun h => h (take_pfx_append _ _ _)⟩
  have hpos : ¬(P.length = 0) := fun h => hP (List.length_eq_zero.mp h)
  have hnonempty : ¬(P = [] ∨ S = []) := not_or.mpr ⟨hP, hS⟩
  simp only [parseServiceMetricName]
  rw [if_neg hcs, if_pos hc1]
  simp only []
  rw [if_neg hc2, middle_extract, hsplit]
  simp only []
  rw [if_neg hpos, List.take_left, drop_nested, if_neg hnonempty]

theorem parseApiMetricName_serviceSuccess_none (P S : List Char)
    (hnoM : findSub "_MethodName_".data (P ++ ("_ServiceName_".data ++ S)) = none) :
    parseApiMetricName
        ("AppGw_PluginName_".data ++ (P ++ ("_ServiceName_".data ++ S)) ++
          "_Success_split".data)
      = none := by
  have l1 : ("AppGw_PluginName_".data).length = 17 := rfl
  have l3 : ("_Success_split".data).length = 14 := rfl
  have hnlen : ("AppGw_PluginName_".data ++ (P ++ ("_ServiceName_".data ++ S)) ++
      "_Success_split".data).length = 17 + (P.length + (13 + S.length)) + 14 := by
    simp only [List.length_append]
    rfl
  have hc1 : ("AppGw_PluginName_".data ++ (P ++ ("_ServiceName_".data ++ S)) ++
        "_Success_split".data).length > ("_Success_split".data).length ∧
      ("AppGw_PluginName_".data ++ (P ++ ("_ServiceName_".data ++ S)) ++
        "_Success_split".data).drop
        (("AppGw_PluginName_".data ++ (P ++ ("_ServiceName_".data ++ S)) ++
          "_Success_split".data).length - ("_Success_split".data).length)
        = "_Success_split".data :=
    ⟨by rw [hnlen, l3]; omega, drop_len_sub_self _ _⟩
  have hc2 : ¬(("AppGw_PluginName_".data ++ (P ++ ("_ServiceName_".data ++ S)) ++
        "_Success_split".data).length ≤ ("AppGw_PluginName_".data).length ∨
      ("AppGw_PluginName_".data ++ (P ++ ("_ServiceName_".data ++ S)) ++
        "_Success_split".data).take ("AppGw_PluginName_".data).length
        ≠ "AppGw_PluginName_".data) :=
    not_or.mpr ⟨by rw [hnlen, l1]; omega, fun h => h (take_pfx_append _ _ _)⟩
  simp only [parseApiMetricName]
  rw [if_pos hc1]
  simp only []
  rw [if_neg hc2, middle_extract, hnoM]

theorem parseApiMetricName_serviceError_none (P S : List Char)
    (hnoM : findSub "_MethodName_".data (P ++ ("_ServiceName_".data ++ S)) = none) :
    parseApiMetricName
        ("AppGw_PluginName_".data ++ (P ++ ("_ServiceName_".data ++ S)) ++
          "_Error_split".data)
      = none := by
  have l1 : ("AppGw_PluginName_".data).length = 17 := rfl
  have l3 : ("_Error_split".data).length = 12 := rfl
  have hXlen : ("AppGw_PluginName_".data ++ (P ++ ("_ServiceName_".data ++ S))).length
      = 17 + (P.length + (13 + S.length)) := by
    simp only [List.length_append]
    rfl
  have hnlen : ("AppGw_PluginName_".data ++ (P ++ ("_ServiceName_".data ++ S)) ++
      "_Error_split".data).length = 17 + (P.length + (13 + S.length)) + 12 := by
    rw [List.length_append, hXlen, l3]
  have hcs : ¬(("AppGw_PluginName_".data ++ (P ++ ("_ServiceName_".data ++ S)) ++
        "_Error_split".data).length > ("_Success_split".data).length ∧
      ("AppGw_PluginName_".data ++ (P ++ ("_ServiceName_".data ++ S)) ++
        "_Error_split".data).drop
        (("AppGw_PluginName_".data ++ (P ++ ("_ServiceName_".data ++ S)) ++
          "_Error_split".data).length - ("_Success_split".data).length)
        = "_Success_split".data) :=
    fun h => drop_len_sub_ne_long _ _ _ 2 (by decide) (by rw [hXlen]; omega)
      (by decide) h.2
  have hc1 : ("AppGw_PluginName_".data ++ (P ++ ("_ServiceName_".data ++ S)) ++
        "_Error_split".data).length > ("_Error_split".data).length ∧
      ("AppGw_PluginName_".data ++ (P ++ ("_ServiceName_".data ++ S)) ++
        "_Error_split".data).drop
        (("AppGw_PluginName_".data ++ (P ++ ("_ServiceName_".data ++ S)) ++
          "_Error_split".data).length - ("_Error_split".data).length)
        = "_Error_split".data :=
    ⟨by rw [hnlen, l3]; omega, drop_len_sub_self _ _⟩
  have hc2 : ¬(("AppGw_PluginName_".data ++ (P ++ ("_ServiceName_".data ++ S)) ++
        "_Error_split".data).length ≤ ("AppGw_PluginName_".data).length ∨
      ("AppGw_PluginName_".data ++ (P ++ ("_ServiceName_".data ++ S)) ++
        "_Error_split".data).take ("AppGw_PluginName_".data).length
        ≠ "AppGw_PluginName_".data) :=
    not_or.mpr ⟨by rw [hnlen, l1]; omega, fun h => h (take_pfx_append _ _ _)⟩
  simp only [parseApiMetricName]
  rw [if_neg hcs, if_pos hc1]
  simp only []
  rw [if_neg hc2, middle_extract, hnoM]

theorem parseApiLatencyMetricName_mk (P A : List Char) (hP : P ≠ []) (hA : A ≠ [])
    (hsplit : findSub "_ApiName_".data (P ++ ("_ApiName_".data ++ A))
      = some P.length) :
    parseApiLatencyMetricName
        ("AppGw_PluginName_".data ++ (P ++ ("_ApiName_".data ++ A)) ++
          "_ApiLatency_split".data)
      = some (P, A) := by
  have l1 : ("AppGw_PluginName_".data).length = 17 := rfl
  have l3 : ("_ApiLatency_split".data).length = 17 := rfl
  have hnlen : ("AppGw_PluginName_".data ++ (P ++ ("_ApiName_".data ++ A)) ++
      "_ApiLatency_split".data).length = 17 + (P.length + (9 + A.length)) + 17 := by
    simp only [List.length_append]
    rfl
  have hc1 : ¬(("AppGw_PluginName_".data ++ (P ++ ("_ApiName_".data ++ A)) ++
        "_ApiLatency_split".data).length ≤ ("_ApiLatency_split".data).length ∨
      ("AppGw_PluginName_".data ++ (P ++ ("_ApiName_".data ++ A)) ++
        "_ApiLatency_split".data).drop
        (("AppGw_PluginName_".data ++ (P ++ ("_ApiName_".data ++ A)) ++
          "_ApiLatency_split".data).length - ("_ApiLatency_split".data).length)
        ≠ "_ApiLatency_split".data) :=
    not_or.mpr ⟨by rw [hnlen, l3]; omega, fun h => h (drop_len_sub_self _ _)⟩
  have hc2 : ¬(("AppGw_PluginName_".data ++ (P ++ ("_ApiName_".data ++ A)) ++
        "_ApiLatency_split".data).length ≤ ("AppGw_PluginName_".data).length ∨
      ("AppGw_PluginName_".data ++ (P ++ ("_ApiName_".data ++ A)) ++
        "_ApiLatency_split".data).take ("AppGw_PluginName_".data).length
        ≠ "AppGw_PluginName_".data) :=
    not_or.mpr ⟨by rw [hnlen, l1]; omega, fun h => h (take_pfx_append _ _ _)⟩
  have hpos : ¬(P.length = 0) := fun h => hP (List.length_eq_zero.mp h)
  have hnonempty : ¬(P = [] ∨ A = []) := not_or.mpr ⟨hP, hA⟩
  simp only [parseApiLatencyMetricName]
  rw [if_neg hc1, if_neg hc2, middle_extract, hsplit]
  simp only []
  rw [if_neg hpos, List.take_left, drop_nested, if_neg hnonempty]

theorem parseApiMetricName_apiLatency_none (P A : List Char) :
    parseApiMetricName
        ("AppGw_PluginName_".data ++ (P ++ ("_ApiName_".data ++ A)) ++
          "_ApiLatency_split".data)
      = none := by
  have hcs : ¬(("AppGw_PluginName_".data ++ (P ++ ("_ApiName_".data ++ A)) ++
        "_ApiLatency_split".data).length > ("_Success_split".data).length ∧
      ("AppGw_PluginName_".data ++ (P ++ ("_ApiName_".data ++ A)) ++
        "_ApiLatency_split".data).drop
        (("AppGw_PluginName_".data ++ (P ++ ("_ApiName_".data ++ A)) ++
          "_ApiLatency_split".data).length - ("_Success_split".data).length)
        = "_Success_split".data) :=
    fun h => drop_len_sub_ne_short _ _ _ 3 (by decide) (by decide) h.2
  have hce : ¬(("AppGw_PluginName_".data ++ (P ++ ("_ApiName_".data ++ A)) ++
        "_ApiLatency_split".data).length > ("_Error_split".data).length ∧
      ("AppGw_PluginName_".data ++ (P ++ ("_ApiName_".data ++ A)) ++
        "_ApiLatency_split".data).drop
        (("AppGw_PluginName_".data ++ (P ++ ("_ApiName_".data ++ A)) ++
          "_ApiLatency_split".data).length - ("_Error_split".data).length)
        = "_Error_split".data) :=
    fun h => drop_len_sub_ne_short _ _ _ 5 (by decide) (by decide) h.2
  simp only [parseApiMetricName]
  rw [if_neg hcs, if_neg hce]

theorem parseServiceMetricName_apiLatency_none (P A : List Char) :
    parseServiceMetricName
        ("AppGw_PluginName_".data ++ (P ++ ("_ApiName_".data ++ A)) ++
          "_ApiLatency_split".data)
      = none := by
  have hcs : ¬(("AppGw_PluginName_".data ++ (P ++ ("_ApiName_".data ++ A)) ++
        "_ApiLatency_split".data).length > ("_Success_split".data).length ∧
      ("AppGw_PluginName_".data ++ (P ++ ("_ApiName_".data ++ A)) ++
        "_ApiLatency_split".data).drop
        (("AppGw_PluginName_".data ++ (P ++ ("_ApiName_".data ++ A)) ++
          "_ApiLatency_split".data).length - ("_Success_split".data).length)
        = "_Success_split".data) :=
    fun h => drop_len_sub_ne_short _ _ _ 3 (by decide) (by decide) h.2
  have hce : ¬(("AppGw_PluginName_".data ++ (P ++ ("_ApiName_".data ++ A)) ++
        "_ApiLatency_split".data).length > ("_Error_split".data).length ∧
      ("AppGw_PluginName_".data ++ (P ++ ("_ApiName_".data ++ A)) ++
        "_ApiLatency_split".data).drop
        (("AppGw_PluginName_".data ++ (P ++ ("_ApiName_".data ++ A)) ++
          "_ApiLatency_split".data).length - ("_Error_split".data).length)
        = "_Error_split".data) :=
    fun h => drop_len_sub_ne_short _ _ _ 5 (by decide) (by decide) h.2
  simp only [parseServiceMetricName]
  rw [if_neg hcs, if_neg hce]

theorem parseServiceLatencyMetricName_mk (P S : List Char) (hP : P ≠ []) (hS : S ≠ [])
    (hsplit : findSub "_ServiceName_".data (P ++ ("_ServiceName_".data ++ S))
      = some P.length) :
    parseServiceLatencyMetricName
        ("AppGw_PluginName_".data ++ (P ++ ("_ServiceName_".data ++ S)) ++
          "_ServiceLatency_split".data)
      = some (P, S) := by
  have l1 : ("AppGw_PluginName_".data).length = 17 := rfl
  have l3 : ("_ServiceLatency_split".data).length = 21 := rfl
  have hnlen : ("AppGw_PluginName_".data ++ (P ++ ("_ServiceName_".data ++ S)) ++
      "_ServiceLatency_split".data).length = 17 + (P.length + (13 + S.length)) + 21 := by
    simp only [List.length_append]
    rfl
  have hc1 : ¬(("AppGw_PluginName_".data ++ (P ++ ("_ServiceName_".data ++ S)) ++
        "_ServiceLatency_split".data).length ≤ ("_ServiceLatency_split".data).length ∨
      ("AppGw_PluginName_".data ++ (P ++ ("_ServiceName_".data ++ S)) ++
        "_ServiceLatency_split".data).drop
        (("AppGw_PluginName_".data ++ (P ++ ("_ServiceName_".data ++ S)) ++
          "_ServiceLatency_split".data).length - ("_ServiceLatency_split".data).length)
        ≠ "_ServiceLatency_split".data) :=
    not_or.mpr ⟨by rw [hnlen, l3]; omega, fun h => h (drop_len_sub_self _ _)⟩
  have hc2 : ¬(("AppGw_PluginName_".data ++ (P ++ ("_ServiceName_".data ++ S)) ++
        "_ServiceLatency_split".data).length ≤ ("AppGw_PluginName_".data).length ∨
      ("AppGw_PluginName_".data ++ (P ++ ("_ServiceName_".data ++ S)) ++
        "_ServiceLatency_split".data).take ("AppGw_PluginName_".data).length
        ≠ "AppGw_PluginName_".data) :=
    not_or.mpr ⟨by rw [hnlen, l1]; omega, fun h => h (take_pfx_append _ _ _)⟩
  have hpos : ¬(P.length = 0) := fun h => hP (List.length_eq_zero.mp h)
  have hnonempty : ¬(P = [] ∨ S = []) := not_or.mpr ⟨hP, hS⟩
  simp only [parseServiceLatencyMetricName]
  rw [if_neg hc1, if_neg hc2, middle_extract, hsplit]
  simp only []
  rw [if_neg hpos, List.take_left, drop_nested, if_neg hnonempty]

theorem parseApiMetricName_serviceLatency_none (P S : List Char) :
    parseApiMetricName
        ("AppGw_PluginName_".data ++ (P ++ ("_ServiceName_".data ++ S)) ++
          "_ServiceLatency_split".data)
      = none := by
  have hcs : ¬(("AppGw_PluginName_".data ++ (P ++ ("_ServiceName_".data ++ S)) ++
        "_ServiceLatency_split".data).length > ("_Success_split".data).length ∧
      ("AppGw_PluginName_".data ++ (P ++ ("_ServiceName_".data ++ S)) ++
        "_ServiceLatency_split".data).drop
        (("AppGw_PluginName_".data ++ (P ++ ("_ServiceName_".data ++ S)) ++
          "_ServiceLatency_split".data).length - ("_Success_split".data).length)
        = "_Success_split".data) :=
    fun h => drop_len_sub_ne_short _ _ _ 7 (by decide) (by decide) h.2
  have hce : ¬(("AppGw_PluginName_".data ++ (P ++ ("_ServiceName_".data ++ S)) ++
        "_ServiceLatency_split".data).length > ("_Error_split".data).length ∧
      ("AppGw_PluginName_".data ++ (P ++ ("_ServiceName_".data ++ S)) ++
        "_ServiceLatency_split".data).drop
        (("AppGw_PluginName_".data ++ (P ++ ("_ServiceName_".data ++ S)) ++
          "_ServiceLatency_split".data).length - ("_Error_split".data).length)
        = "_Error_split".data) :=
    fun h => drop_len_sub_ne_short _ _ _ 9 (by decide) (by decide) h.2
  simp only [parseApiMetricName]
  rw [if_neg hcs, if_neg hce]

theorem parseServiceMetricName_serviceLatency_none (P S : List Char) :
    parseServiceMetricName
        ("AppGw_PluginName_".data ++ (P ++ ("_ServiceName_".data ++ S)) ++
          "_ServiceLatency_split".data)
      = none := by
  have hcs : ¬(("AppGw_PluginName_".data ++ (P ++ ("_ServiceName_".data ++ S)) ++
        "_ServiceLatency_split".data).length > ("_Success_split".data).length ∧
      ("AppGw_PluginName_".data ++ (P ++ ("_ServiceName_".data ++ S)) ++
        "_ServiceLatency_split".data).drop
        (("AppGw_PluginName_".data ++ (P ++ ("_ServiceName_".data ++ S)) ++
          "_ServiceLatency_split".data).length - ("_Success_split".data).length)
        = "_Success_split".data) :=
    fun h => drop_len_sub_ne_short _ _ _ 7 (by decide) (by decide) h.2
  have hce : ¬(("AppGw_PluginName_".data ++ (P ++ ("_ServiceName_".data ++ S)) ++
        "_ServiceLatency_split".data).length > ("_Error_split".data).length ∧
      ("AppGw_PluginName_".data ++ (P ++ ("_ServiceName_".data ++ S)) ++
        "_ServiceLatency_split".data).drop
        (("AppGw_PluginName_".data ++ (P ++ ("_ServiceName_".data ++ S)) ++
          "_ServiceLatency_split".data).length - ("_Error_split".data).length)
        = "_Error_split".data) :=
    fun h => drop_len_sub_ne_short _ _ _ 9 (by decide) (by decide) h.2
  simp only [parseServiceMetricName]
  rw [if_neg hcs, if_neg hce]

theorem parseApiLatencyMetricName_serviceLatency_none (P S : List Char) :
    parseApiLatencyMetricName
        ("AppGw_PluginName_".data ++ (P ++ ("_ServiceName_".data ++ S)) ++
          "_ServiceLatency_split".data)
      = none := by
  have hne : ("AppGw_PluginName_".data ++ (P ++ ("_ServiceName_".data ++ S)) ++
        "_ServiceLatency_split".data).drop
        (("AppGw_PluginName_".data ++ (P ++ ("_ServiceName_".data ++ S)) ++
          "_ServiceLatency_split".data).length - ("_ApiLatency_split".data).length)
        ≠ "_ApiLatency_split".data :=
    drop_len_sub_ne_short _ _ _ 4 (by decide) (by decide)
  simp only [parseApiLatencyMetricName]
  rw [if_pos (Or.inr hne)]

theorem mk_ne_bootstrap (P tag Q sfx : List Char) (hsfx : 12 ≤ sfx.length)
    (htag : 9 ≤ tag.length) :
    "AppGw_PluginName_".data ++ (P ++ (tag ++ Q)) ++ sfx
      ≠ AGW_MARKER_BOOTSTRAP_DURATION := by
  intro h
  have hlen := congrArg List.length h
  simp only [List.length_append] at hlen
  have h1 : ("AppGw_PluginName_".data).length = 17 := rfl
  have h2 : AGW_MARKER_BOOTSTRAP_DURATION.length = 28 := rfl
  rw [h1, h2] at hlen
  omega

theorem telRecordApiMethodMetric_counts (P M : List Char) (v : ℚ) (e : Bool)
    (st : TelState) :
    (telRecordApiMethodMetric P M v e st).cachedEventCount = st.cachedEventCount + 1 ∧
    (telRecordApiMethodMetric P M v e st).cacheThreshold = st.cacheThreshold := by
  constructor <;> simp [telRecordApiMethodMetric]

theorem telRecordServiceMethodMetric_counts (P S : List Char) (v : ℚ) (e : Bool)
    (st : TelState) :
    (telRecordServiceMethodMetric P S v e st).cachedEventCount
        = st.cachedEventCount + 1 ∧
    (telRecordServiceMethodMetric P S v e st).cacheThreshold = st.cacheThreshold := by
  constructor <;> simp [telRecordServiceMethodMetric]

theorem telRecordApiLatencyMetric_counts (P A : List Char) (v : ℚ) (st : TelState) :
    (telRecordApiLatencyMetric P A v st).cachedEventCount = st.cachedEventCount + 1 ∧
    (telRecordApiLatencyMetric P A v st).cacheThreshold = st.cacheThreshold := by
  constructor <;> simp [telRecordApiLatencyMetric]

theorem telRecordServiceLatencyMetric_counts (P S : List Char) (v : ℚ) (st : TelState) :
    (telRecordServiceLatencyMetric P S v st).cachedEventCount
        = st.cachedEventCount + 1 ∧
    (telRecordServiceLatencyMetric P S v st).cacheThreshold = st.cacheThreshold := by
  constructor <;> simp [telRecordServiceLatencyMetric]

theorem telRecordGenericMetric_counts (n : List Char) (v : ℚ) (u : List Char)
    (st : TelState) :
    (telRecordGenericMetric n v u st).cachedEventCount = st.cachedEventCount + 1 ∧
    (telRecordGenericMetric n v u st).cacheThreshold = st.cacheThreshold := by
  constructor <;> simp [telRecordGenericMetric]

/-! ## Claim theorems -/

/-- C1 (counterexample): for the query `session=tok&a=b`, `ResolveQuery`
returns `tok&a=b`, not the bare token `tok` — a query key after the
`session` parameter appears in the returned token. -/
theorem resolveQuery_trailing_key_counterexample :
    resolveQuery "session=tok&a=b".data "session".data = some "tok&a=b".data ∧
    "tok&a=b".data ≠ "tok".data := by decide

/-- C1 (amended): `ResolveQuery(query, "session")` returns exactly the
token when the query is precisely `session=<token>` with a non-empty,
`&`-free token, i.e. when the session parameter is the only query key. -/
theorem resolveQuery_session_only (tok : List Char) (h1 : tok ≠ [])
    (h2 : '&' ∉ tok) :
    resolveQuery ("session=".data ++ tok) "session".data = some tok := by
  have hpfx : ("session".data).isPrefixOf ("session=".data ++ tok) := by
    rw [ List.isPrefixOf_iff_prefix]
    have hsplit : "session=".data = "session".data ++ ['='] := by decide
    rw [hsplit, List.append_assoc]
    exact List.prefix_append _ _
  have hfind := findSub_of_isPrefixOf hpfx
  have hne : ¬("session=".data ++ tok = []) := by simp
  have hamp : findSub ['&'] ("session=".data ++ tok) = none := by
    apply findSub_single_eq_none
    rw [List.mem_append]
    rintro (hmem | hmem)
    · revert hmem; decide
    · exact h2 hmem
  have hlen : ¬(("session=".data ++ tok).length < 0 + ("session".data).length + 1) := by
    rw [List.length_append]
    have h8 : ("session=".data).length = 8 := rfl
    have h7 : ("session".data).length = 7 := rfl
    omega
  have hdrop : ("session=".data ++ tok).drop (0 + ("session".data).length + 1) = tok := by
    have hlen8 : 0 + ("session".data).length + 1 = ("session=".data).length := by decide
    rw [hlen8, List.drop_left]
  simp only [resolveQuery, hfind, hamp, if_neg hne, if_neg hlen, hdrop, if_neg h1]

/-- C1 (witness for the amended theorem): query `session=tok` yields
exactly `tok`. -/
theorem resolveQuery_session_only_witness :
    resolveQuery ("session=".data ++ "tok".data) "session".data = some "tok".data :=
  resolveQuery_session_only "tok".data (by decide) (by decide)

/-- C2 (code evaluated at the failing input): every casing of
`presentation.onFocusedChanged` is rejected by `HandleEvent`, although the
allow-list contains an entry that equals it case-insensitively — the
entry `presentation.onfocusedChanged` keeps an upper-case `C` while the
lookup lowercases the event, so the entry is unreachable. -/
theorem handleEvent_rejects_onFocusedChanged :
    (handleEvent "presentation.onFocusedChanged".data true).1 = false ∧
    (handleEvent "presentation.onfocusedchanged".data true).1 = false ∧
    toLowerStr "presentation.onFocusedChanged".data
      = toLowerStr "presentation.onfocusedChanged".data ∧
    "presentation.onfocusedChanged".data ∈ VALID_LIFECYCLE_EVENT ∧
    (handleEvent "Lifecycle.onBackground".data true) = (true, false) := by decide

/-- C3 (counterexample): with an appId registered for connection 5 but no
resolver cached and none obtainable from the service, `DispatchWsMsg`
invokes nothing — the resolver is not called even though an appId exists. -/
theorem dispatchWsMsg_noResolver_counterexample :
    lookupAssoc (ResponderState.mk [(5, "app".data)] none none).appIdRegistry 5
      = some "app".data ∧
    (dispatchWsMsg ⟨[(5, "app".data)], none, none⟩ 1 5).resolveCalls = [] ∧
    (dispatchWsMsg ⟨[(5, "app".data)], none, none⟩ 1 5).closes = [] := by decide

/-- C3 (amended): if the registry has no appId for the connection, the
router closes exactly that connection and never invokes the resolver; if
an appId exists the connection is not closed and — provided a resolver is
cached or obtainable from the service — the resolver is invoked once with
exactly `(requestId, connectionId, appId)`. -/
theorem dispatchWsMsg_routes (st : ResponderState) (rid cid : Nat) :
    (lookupAssoc st.appIdRegistry cid = none →
       dispatchWsMsg st rid cid = ⟨[cid], [], st.resolver⟩) ∧
    (∀ appId, lookupAssoc st.appIdRegistry cid = some appId →
       (dispatchWsMsg st rid cid).closes = [] ∧
       (st.resolver.isSome = true ∨ st.serviceResolver.isSome = true →
          (dispatchWsMsg st rid cid).resolveCalls = [⟨rid, cid, appId⟩])) := by
  constructor
  · intro h
    simp [dispatchWsMsg, h]
  · intro appId h
    cases hr : st.resolver with
    | some r => constructor <;> simp [dispatchWsMsg, h, hr]
    | none =>
      cases hs : st.serviceResolver with
      | some r => constructor <;> simp [dispatchWsMsg, h, hr, hs]
      | none =>
        refine ⟨by simp [dispatchWsMsg, h, hr, hs], ?_⟩
        rintro (habs | habs) <;> simp_all

/-- C3 (witness): the amended theorem applied to a concrete state, both on
an unknown connection (9) and on a registered one (7). -/
theorem dispatchWsMsg_routes_witness :
    dispatchWsMsg ⟨[(7, "app".data)], some (), none⟩ 3 9 = ⟨[9], [], some ()⟩ ∧
    ((dispatchWsMsg ⟨[(7, "app".data)], some (), none⟩ 3 7).closes = [] ∧
     (dispatchWsMsg ⟨[(7, "app".data)], some (), none⟩ 3 7).resolveCalls
       = [⟨3, 7, "app".data⟩]) := by
  refine ⟨(dispatchWsMsg_routes ⟨[(7, "app".data)], some (), none⟩ 3 9).1 (by decide), ?_⟩
  have h := (dispatchWsMsg_routes ⟨[(7, "app".data)], some (), none⟩ 3 7).2
    ("app".data) (by decide)
  exact ⟨h.1, h.2 (Or.inl (by decide))⟩

/-- C4: recording `N ≥ 1` success-latency samples into one fresh
`(plugin, method)` bucket and flushing emits exactly one payload for the
bucket with `success_count = N`, average `sum / N`, and min/max fields
equal to the minimum and maximum of the samples, with
`min ≤ avg ≤ max`. Samples are assumed to be finite doubles strictly
between the two `std::numeric_limits<double>` sentinels. -/
theorem apiMethodStats_aggregation (P M : List Char) (hP : P ≠ [])
    (samples : List ℚ) (hne : samples ≠ [])
    (hbound : ∀ x ∈ samples, -dblMax < x ∧ x < dblMax) :
    ∃ mn mx : ℚ,
      sendApiMethodStats (recordSuccessSeries P M samples initialTelState)
        = [{ pluginName := P
             methodName := M
             successCount := samples.length
             successLatencyAvgMs := some (samples.sum / samples.length)
             successLatencyMinMs := some mn
             successLatencyMaxMs := some mx
             errorCount := 0
             errorLatencyAvgMs := none
             errorLatencyMinMs := none
             errorLatencyMaxMs := none
             totalCount := samples.length }] ∧
      mn ∈ samples ∧ (∀ x ∈ samples, mn ≤ x) ∧
      mx ∈ samples ∧ (∀ x ∈ samples, x ≤ mx) ∧
      mn ≤ samples.sum / samples.length ∧ samples.sum / samples.length ≤ mx := by
  obtain ⟨v0, rest, rfl⟩ : ∃ v0 rest, samples = v0 :: rest := by
    cases samples with
    | nil => exact absurd rfl hne
    | cons a l => exact ⟨a, l, rfl⟩
  have hname1 : (apiMethodStatsUpdate v0 false
      { pluginName := P, methodName := M : ApiMethodStats }).pluginName = P :=
    (apiMethodStatsUpdate_names v0 false _).1.trans rfl
  have hmapfin : (recordSuccessSeries P M (v0 :: rest) initialTelState).apiMethodStats
      = [(P ++ ['_'] ++ M,
          (v0 :: rest).foldl (fun a v => apiMethodStatsUpdate v false a)
            { pluginName := P, methodName := M })] := by
    have hcons : recordSuccessSeries P M (v0 :: rest) initialTelState
        = recordSuccessSeries P M rest
            (telRecordApiMethodMetric P M v0 false initialTelState) := by
      simp [recordSuccessSeries, List.foldl_cons]
    rw [hcons,
      recordSuccessSeries_singleton P M hP rest
        (telRecordApiMethodMetric P M v0 false initialTelState)
        (apiMethodStatsUpdate v0 false { pluginName := P, methodName := M })
        (telRecordApiMethodMetric_initial P M v0) hname1,
      List.foldl_cons]
  obtain ⟨hn1, hn2, hc, he, ht, hmin, hmax⟩ :=
    bucketFold_success (v0 :: rest) { pluginName := P, methodName := M }
  have hmn_le : ∀ x ∈ v0 :: rest, foldMin dblMax (v0 :: rest) ≤ x :=
    fun x hx => foldMin_le_mem _ _ x hx
  have hmn_mem : foldMin dblMax (v0 :: rest) ∈ v0 :: rest := by
    rcases foldMin_mem_or (v0 :: rest) dblMax with h | h
    · exact h
    · exfalso
      have h1 := hmn_le v0 (List.mem_cons_self v0 rest)
      have h2 := (hbound v0 (List.mem_cons_self v0 rest)).2
      rw [h] at h1
      exact absurd (lt_of_le_of_lt h1 h2) (lt_irrefl _)
  have hmn_ne : foldMin dblMax (v0 :: rest) ≠ dblMax :=
    ne_of_lt (hbound _ hmn_mem).2
  have hmx_ge : ∀ x ∈ v0 :: rest, x ≤ foldMax dblLowest (v0 :: rest) :=
    fun x hx => foldMax_ge_mem _ _ x hx
  have hmx_mem : foldMax dblLowest (v0 :: rest) ∈ v0 :: rest := by
    rcases foldMax_mem_or (v0 :: rest) dblLowest with h | h
    · exact h
    · exfalso
      have h1 := hmx_ge v0 (List.mem_cons_self v0 rest)
      have h2 := (hbound v0 (List.mem_cons_self v0 rest)).1
      rw [h] at h1
      rw [dblLowest] at h1
      exact absurd (lt_of_lt_of_le h2 h1) (lt_irrefl _)
  have hmx_ne : foldMax dblLowest (v0 :: rest) ≠ dblLowest := by
    have h2 := (hbound _ hmx_mem).1
    intro hcontr
    rw [hcontr, dblLowest] at h2
    exact absurd h2 (lt_irrefl _)
  have hcS : ((v0 :: rest).foldl (fun a v => apiMethodStatsUpdate v false a)
      { pluginName := P, methodName := M : ApiMethodStats }).successCount
      = (v0 :: rest).length := by rw [hc]; simp
  have heS : ((v0 :: rest).foldl (fun a v => apiMethodStatsUpdate v false a)
      { pluginName := P, methodName := M : ApiMethodStats }).errorCount = 0 := by
    rw [he]
  have htS : ((v0 :: rest).foldl (fun a v => apiMethodStatsUpdate v false a)
      { pluginName := P, methodName := M : ApiMethodStats }).totalSuccessLatencyMs
      = (v0 :: rest).sum := by rw [ht]; ring_nf
  have hlen_pos : (0 : ℚ) < ((v0 :: rest).length : ℚ) := by
    have h0 : 0 < (v0 :: rest).length := Nat.succ_pos _
    exact_mod_cast h0
  set S : ApiMethodStats :=
    (v0 :: rest).foldl (fun a v => apiMethodStatsUpdate v false a)
      { pluginName := P, methodName := M } with hSdef
  refine ⟨foldMin dblMax (v0 :: rest), foldMax dblLowest (v0 :: rest), ?_,
    hmn_mem, hmn_le, hmx_mem, hmx_ge, ?_, ?_⟩
  · have hpay : mkApiMethodPayload S
        = { pluginName := P
            methodName := M
            successCount := (v0 :: rest).length
            successLatencyAvgMs := some ((v0 :: rest).sum / (v0 :: rest).length)
            successLatencyMinMs := some (foldMin dblMax (v0 :: rest))
            successLatencyMaxMs := some (foldMax dblLowest (v0 :: rest))
            errorCount := 0
            errorLatencyAvgMs := none
            errorLatencyMinMs := none
            errorLatencyMaxMs := none
            totalCount := (v0 :: rest).length } := by
      simp only [mkApiMethodPayload, hcS, heS, htS, hmin, hmax, hn1, hn2]
      simp [hmn_ne, hmx_ne, ApiMethodPayload.mk.injEq]
    simp only [sendApiMethodStats, hmapfin, List.filterMap_cons, List.filterMap_nil]
    rw [hpay]
    simp [hcS]
  · rw [le_div_iff₀ hlen_pos]
    have hsum := length_mul_le_sum (v0 :: rest) _ hmn_le
    linarith [hsum]
  · rw [div_le_iff₀ hlen_pos]
    have hsum := sum_le_length_mul (v0 :: rest) _ hmx_ge
    linarith [hsum]

/-- C4 (witness): three samples 100, 200, 300 recorded into one bucket
yield `success_count = 3`, average 200, minimum 100 and maximum 300. -/
theorem apiMethodStats_aggregation_witness :
    ∃ mn mx : ℚ,
      sendApiMethodStats
          (recordSuccessSeries "P".data "M".data [100, 200, 300] initialTelState)
        = [{ pluginName := "P".data
             methodName := "M".data
             successCount := ([100, 200, 300] : List ℚ).length
             successLatencyAvgMs :=
               some (([100, 200, 300] : List ℚ).sum / ([100, 200, 300] : List ℚ).length)
             successLatencyMinMs := some mn
             successLatencyMaxMs := some mx
             errorCount := 0
             errorLatencyAvgMs := none
             errorLatencyMinMs := none
             errorLatencyMaxMs := none
             totalCount := ([100, 200, 300] : List ℚ).length }] ∧
      mn ∈ ([100, 200, 300] : List ℚ) ∧
      (∀ x ∈ ([100, 200, 300] : List ℚ), mn ≤ x) ∧
      mx ∈ ([100, 200, 300] : List ℚ) ∧
      (∀ x ∈ ([100, 200, 300] : List ℚ), x ≤ mx) ∧
      mn ≤ ([100, 200, 300] : List ℚ).sum / ([100, 200, 300] : List ℚ).length ∧
      ([100, 200, 300] : List ℚ).sum / ([100, 200, 300] : List ℚ).length ≤ mx :=
  apiMethodStats_aggregation "P".data "M".data (by decide) [100, 200, 300]
    (by decide) (by norm_num [dblMax])

/-- C6 (counterexample): the metric name
`AppGw_PluginName_X_MethodName_Y_MethodName_Z_Success_split` is of the
claimed form for `P = X_MethodName_Y`, `M = Z` (both non-empty), yet
`RecordTelemetryMetric` does not record it under the key `(P, M)` — the
parser splits at the first `_MethodName_` tag, so the sample lands in the
bucket keyed `(X, Y_MethodName_Z)` instead. -/
theorem recordTelemetryMetric_ambiguity_counterexample :
    parseApiMetricName
        "AppGw_PluginName_X_MethodName_Y_MethodName_Z_Success_split".data
      = some ("X".data, "Y_MethodName_Z".data, false) ∧
    lookupAssoc
        (recordTelemetryMetric initialTelState
          "AppGw_PluginName_X_MethodName_Y_MethodName_Z_Success_split".data
          5 "ms".data 0).1.apiMethodStats
        "X_MethodName_Y_Z".data
      = none ∧
    (lookupAssoc
        (recordTelemetryMetric initialTelState
          "AppGw_PluginName_X_MethodName_Y_MethodName_Z_Success_split".data
          5 "ms".data 0).1.apiMethodStats
        "X_Y_MethodName_Z".data).isSome = true := by decide

/-- C6 (amended): the routing of `RecordTelemetryMetric`, with each
`<P>`-tagged form read as splitting at the first occurrence of its tag:
the exact bootstrap-duration name goes to `RecordBootstrapTime`; a
`..._MethodName_..._Success|Error_split` name whose first `_MethodName_`
occurrence separates non-empty `P` and `M` is recorded as a
success/error sample in the API-method aggregate for `(P, M)`; the
`_ServiceName_`+`_Success|Error_split`, `_ApiName_`+`_ApiLatency_split`
and `_ServiceName_`+`_ServiceLatency_split` forms go to the
service-method, API-latency and service-latency aggregates; any name
matching no pattern accumulates in the generic map under the full name.
All under an initialized singleton with the cache threshold not reached. -/
theorem recordTelemetryMetric_routing
    (st : TelState) (P M : List Char) (v : ℚ) (u : List Char) (now : Nat)
    (hinit : st.initialized = true) (hP : P ≠ []) (hM : M ≠ [])
    (hth : st.cachedEventCount + 1 < st.cacheThreshold) :
    (recordTelemetryMetric st AGW_MARKER_BOOTSTRAP_DURATION v u now
        = (telRecordBootstrapTime (qToU64 v) st, .errorNone)) ∧
    (findSub "_MethodName_".data (P ++ ("_MethodName_".data ++ M)) = some P.length →
      recordTelemetryMetric st
          ("AppGw_PluginName_".data ++ (P ++ ("_MethodName_".data ++ M)) ++
            "_Success_split".data) v u now
        = (telRecordApiMethodMetric P M v false st, .errorNone) ∧
      recordTelemetryMetric st
          ("AppGw_PluginName_".data ++ (P ++ ("_MethodName_".data ++ M)) ++
            "_Error_split".data) v u now
        = (telRecordApiMethodMetric P M v true st, .errorNone)) ∧
    (findSub "_ServiceName_".data (P ++ ("_ServiceName_".data ++ M)) = some P.length →
      findSub "_MethodName_".data (P ++ ("_ServiceName_".data ++ M)) = none →
      recordTelemetryMetric st
          ("AppGw_PluginName_".data ++ (P ++ ("_ServiceName_".data ++ M)) ++
            "_Success_split".data) v u now
        = (telRecordServiceMethodMetric P M v false st, .errorNone) ∧
      recordTelemetryMetric st
          ("AppGw_PluginName_".data ++ (P ++ ("_ServiceName_".data ++ M)) ++
            "_Error_split".data) v u now
        = (telRecordServiceMethodMetric P M v true st, .errorNone)) ∧
    (findSub "_ApiName_".data (P ++ ("_ApiName_".data ++ M)) = some P.length →
      recordTelemetryMetric st
          ("AppGw_PluginName_".data ++ (P ++ ("_ApiName_".data ++ M)) ++
            "_ApiLatency_split".data) v u now
        = (telRecordApiLatencyMetric P M v st, .errorNone)) ∧
    (findSub "_ServiceName_".data (P ++ ("_ServiceName_".data ++ M)) = some P.length →
      recordTelemetryMetric st
          ("AppGw_PluginName_".data ++ (P ++ ("_ServiceName_".data ++ M)) ++
            "_ServiceLatency_split".data) v u now
        = (telRecordServiceLatencyMetric P M v st, .errorNone)) ∧
    (∀ name, name ≠ AGW_MARKER_BOOTSTRAP_DURATION →
      parseApiMetricName name = none → parseServiceMetricName name = none →
      parseApiLatencyMetricName name = none →
      parseServiceLatencyMetricName name = none →
      recordTelemetryMetric st name v u now
        = (telRecordGenericMetric name v u st, .errorNone)) := by
  have hinit' : ¬(st.initialized = false) := by simp [hinit]
  refine ⟨?_, fun hsplitM => ⟨?_, ?_⟩, fun hsplitS hnoM => ⟨?_, ?_⟩,
    fun hsplitA => ?_, fun hsplitS => ?_, fun name hnb hp1 hp2 hp3 hp4 => ?_⟩
  · simp only [recordTelemetryMetric]
    rw [if_neg hinit', if_pos trivial]
  · have hc := telRecordApiMethodMetric_counts P M v false st
    have hthr : ¬((telRecordApiMethodMetric P M v false st).cachedEventCount
        ≥ (telRecordApiMethodMetric P M v false st).cacheThreshold) := by
      rw [hc.1, hc.2]; omega
    simp only [recordTelemetryMetric]
    rw [if_neg hinit',
      if_neg (mk_ne_bootstrap P "_MethodName_".data M "_Success_split".data
        (by decide) (by decide)),
      parseApiMetricName_mkSuccess P M hP hM hsplitM]
    simp only []
    rw [if_neg hthr]
  · have hc := telRecordApiMethodMetric_counts P M v true st
    have hthr : ¬((telRecordApiMethodMetric P M v true st).cachedEventCount
        ≥ (telRecordApiMethodMetric P M v true st).cacheThreshold) := by
      rw [hc.1, hc.2]; omega
    simp only [recordTelemetryMetric]
    rw [if_neg hinit',
      if_neg (mk_ne_bootstrap P "_MethodName_".data M "_Error_split".data
        (by decide) (by decide)),
      parseApiMetricName_mkError P M hP hM hsplitM]
    simp only []
    rw [if_neg hthr]
  · have hc := telRecordServiceMethodMetric_counts P M v false st
    have hthr : ¬((telRecordServiceMethodMetric P M v false st).cachedEventCount
        ≥ (telRecordServiceMethodMetric P M v false st).cacheThreshold) := by
      rw [hc.1, hc.2]; omega
    simp only [recordTelemetryMetric]
    rw [if_neg hinit',
      if_neg (mk_ne_bootstrap P "_ServiceName_".data M "_Success_split".data
        (by decide) (by decide)),
      parseApiMetricName_serviceSuccess_none P M hnoM,
      parseServiceMetricName_mkSuccess P M hP hM hsplitS]
    simp only []
    rw [if_neg hthr]
  · have hc := telRecordServiceMethodMetric_counts P M v true st
    have hthr : ¬((telRecordServiceMethodMetric P M v true st).cachedEventCount
        ≥ (telRecordServiceMethodMetric P M v true st).cacheThreshold) := by
      rw [hc.1, hc.2]; omega
    simp only [recordTelemetryMetric]
    rw [if_neg hinit',
      if_neg (mk_ne_bootstrap P "_ServiceName_".data M "_Error_split".data
        (by decide) (by decide)),
      parseApiMetricName_serviceError_none P M hnoM,
      parseServiceMetricName_mkError P M hP hM hsplitS]
    simp only []
    rw [if_neg hthr]
  · have hc := telRecordApiLatencyMetric_counts P M v st
    have hthr : ¬((telRecordApiLatencyMetric P M v st).cachedEventCount
        ≥ (telRecordApiLatencyMetric P M v st).cacheThreshold) := by
      rw [hc.1, hc.2]; omega
    simp only [recordTelemetryMetric]
    rw [if_neg hinit',
      if_neg (mk_ne_bootstrap P "_ApiName_".data M "_ApiLatency_split".data
        (by decide) (by decide)),
      parseApiMetricName_apiLatency_none P M,
      parseServiceMetricName_apiLatency_none P M,
      parseApiLatencyMetricName_mk P M hP hM hsplitA]
    simp only []
    rw [if_neg hthr]
  · have hc := telRecordServiceLatencyMetric_counts P M v st
    have hthr : ¬((telRecordServiceLatencyMetric P M v st).cachedEventCount
        ≥ (telRecordServiceLatencyMetric P M v st).cacheThreshold) := by
      rw [hc.1, hc.2]; omega
    simp only [recordTelemetryMetric]
    rw [if_neg hinit',
      if_neg (mk_ne_bootstrap P "_ServiceName_".data M "_ServiceLatency_split".data
        (by decide) (by decide)),
      parseApiMetricName_serviceLatency_none P M,
      parseServiceMetricName_serviceLatency_none P M,
      parseApiLatencyMetricName_serviceLatency_none P M,
      parseServiceLatencyMetricName_mk P M hP hM hsplitS]
    simp only []
    rw [if_neg hthr]
  · have hc := telRecordGenericMetric_counts name v u st
    have hthr : ¬((telRecordGenericMetric name v u st).cachedEventCount
        ≥ (telRecordGenericMetric name v u st).cacheThreshold) := by
      rw [hc.1, hc.2]; omega
    simp only [recordTelemetryMetric]
    rw [if_neg hinit', if_neg hnb, hp1, hp2, hp3, hp4]
    simp only []
    rw [if_neg hthr]

/-- C6 (witness): the routing theorem instantiated with plugin `Pl` and
method/service/api name `Me` on the freshly initialized state. -/
theorem recordTelemetryMetric_routing_witness :
    recordTelemetryMetric initialTelState AGW_MARKER_BOOTSTRAP_DURATION 5 "ms".data 0
      = (telRecordBootstrapTime (qToU64 5) initialTelState, .errorNone) ∧
    recordTelemetryMetric initialTelState
        ("AppGw_PluginName_".data ++ ("Pl".data ++ ("_MethodName_".data ++ "Me".data)) ++
          "_Success_split".data) 5 "ms".data 0
      = (telRecordApiMethodMetric "Pl".data "Me".data 5 false initialTelState,
          .errorNone) ∧
    recordTelemetryMetric initialTelState
        ("AppGw_PluginName_".data ++ ("Pl".data ++ ("_ServiceName_".data ++ "Me".data)) ++
          "_ServiceLatency_split".data) 5 "ms".data 0
      = (telRecordServiceLatencyMetric "Pl".data "Me".data 5 initialTelState,
          .errorNone) ∧
    recordTelemetryMetric initialTelState "someOtherMetric".data 5 "ms".data 0
      = (telRecordGenericMetric "someOtherMetric".data 5 "ms".data initialTelState,
          .errorNone) := by
  have h := recordTelemetryMetric_routing initialTelState "Pl".data "Me".data 5
    "ms".data 0 rfl (by decide) (by decide) (by decide)
  exact ⟨h.1, (h.2.1 (by decide)).1, h.2.2.2.2.1 (by decide),
    h.2.2.2.2.2 "someOtherMetric".data (by decide) (by decide) (by decide)
      (by decide) (by decide)⟩

/-- C5: after a flush the interval counters are zero and the aggregation
maps empty, while the websocket gauge and the cumulative bootstrap totals
are preserved and the reporting-start timestamp is advanced to the flush
instant. -/
theorem flushTelemetryData_resets (st : TelState) (now : Nat)
    (h : st.reportingStartTime ≤ now) :
    (flushTelemetryData now st).totalCalls = 0 ∧
    (flushTelemetryData now st).successfulCalls = 0 ∧
    (flushTelemetryData now st).failedCalls = 0 ∧
    (flushTelemetryData now st).cachedEventCount = 0 ∧
    (flushTelemetryData now st).apiMethodStats = [] ∧
    (flushTelemetryData now st).serviceMethodStats = [] ∧
    (flushTelemetryData now st).apiLatencyStats = [] ∧
    (flushTelemetryData now st).serviceLatencyStats = [] ∧
    (flushTelemetryData now st).apiErrorCounts = [] ∧
    (flushTelemetryData now st).extServiceErrorCounts = [] ∧
    (flushTelemetryData now st).metricsCache = [] ∧
    (flushTelemetryData now st).websocketConnections = st.websocketConnections ∧
    (flushTelemetryData now st).totalBootstrapTimeMs = st.totalBootstrapTimeMs ∧
    (flushTelemetryData now st).bootstrapPluginsLoaded = st.bootstrapPluginsLoaded ∧
    (flushTelemetryData now st).reportingStartTime = now ∧
    st.reportingStartTime ≤ (flushTelemetryData now st).reportingStartTime := by
  refine ⟨rfl, rfl, rfl, rfl, rfl, rfl, rfl, rfl, rfl, rfl, rfl, rfl, rfl, rfl, rfl, h⟩

/-- C5 (witness): the flush theorem applied to the freshly initialized
state at instant 5. -/
theorem flushTelemetryData_resets_witness :
    initialTelState.reportingStartTime ≤ 5 ∧
    ((flushTelemetryData 5 initialTelState).websocketConnections
        = initialTelState.websocketConnections ∧
     (flushTelemetryData 5 initialTelState).totalBootstrapTimeMs
        = initialTelState.totalBootstrapTimeMs ∧
     (flushTelemetryData 5 initialTelState).reportingStartTime = 5) := by
  have h := flushTelemetryData_resets initialTelState 5 (by decide)
  exact ⟨by decide, h.2.2.2.2.2.2.2.2.2.2.2.1,
    h.2.2.2.2.2.2.2.2.2.2.2.2.1, h.2.2.2.2.2.2.2.2.2.2.2.2.2.2.1⟩

/-- C7: starting from 0, any sequence of increment/decrement operations
keeps the websocket-connections gauge within `[0, 2^32)` — in particular
it is never negative — and a decrement at 0 is a no-op. -/
theorem websocketConnections_gauge_nonneg (ops : List WsGaugeOp) :
    (0 ≤ ops.foldl wsGaugeStep 0 ∧ ops.foldl wsGaugeStep 0 < 2 ^ 32) ∧
    decrementWebSocketConnections 0 = 0 :=
  ⟨wsGauge_fold_inRange ops 0 le_rfl (by norm_num), by decide⟩

/-- C8: the voice-guidance speed conversions round-trip on the Firebolt
value set 0.5, 1, 1.33, 1.67, 2, when the user-settings delegate is
reachable and returns the stored rate unchanged. -/
theorem voiceGuidanceSpeed_roundTrip (st : UserSettingsState)
    (h : st.hasDelegate = true) :
    getSpeed (setSpeed (1/2) st).1 = (.errorNone, some (1/2)) ∧
    getSpeed (setSpeed 1 st).1 = (.errorNone, some 1) ∧
    getSpeed (setSpeed (133/100) st).1 = (.errorNone, some (133/100)) ∧
    getSpeed (setSpeed (167/100) st).1 = (.errorNone, some (167/100)) ∧
    getSpeed (setSpeed 2 st).1 = (.errorNone, some 2) := by
  simp only [setSpeed, getSpeed, h, if_true,
    vgSpeedFirebolt2Thunder, vgSpeedThunder2Firebolt]
  norm_num

/-- C8 (witness): the round-trip theorem at a concrete delegate state. -/
theorem voiceGuidanceSpeed_roundTrip_witness :
    getSpeed (setSpeed (1/2) ⟨true, 0⟩).1 = (.errorNone, some (1/2)) ∧
    getSpeed (setSpeed 2 ⟨true, 0⟩).1 = (.errorNone, some 2) := by
  have h := voiceGuidanceSpeed_roundTrip ⟨true, 0⟩ rfl
  exact ⟨h.1, h.2.2.2.2⟩

/-- C9: when the telemetry singleton is not initialized, both record entry
points return `ERROR_UNAVAILABLE`, leave the state untouched and emit
nothing. -/
theorem telemetry_uninitialized_noop
    (getField : List Char → List Char → Option (List Char))
    (st : TelState) (eventName eventData metricName metricUnit : List Char)
    (v : ℚ) (now : Nat) (h : st.initialized = false) :
    recordTelemetryEvent getField st eventName eventData now
      = (st, .errorUnavailable, []) ∧
    recordTelemetryMetric st metricName v metricUnit now = (st, .errorUnavailable) := by
  constructor <;> simp [recordTelemetryEvent, recordTelemetryMetric, h]

/-- C9 (witness): the no-op theorem at a concrete uninitialized state. -/
theorem telemetry_uninitialized_noop_witness :
    recordTelemetryEvent (fun _ _ => none) { initialTelState with initialized := false }
        "ev".data "d".data 0
      = ({ initialTelState with initialized := false }, .errorUnavailable, []) ∧
    recordTelemetryMetric { initialTelState with initialized := false }
        "m".data 1 "ms".data 0
      = ({ initialTelState with initialized := false }, .errorUnavailable) :=
  telemetry_uninitialized_noop (fun _ _ => none) _ "ev".data "d".data "m".data "ms".data 1 0 rfl

/-- C10: for an appId whose resolved instance id has no entry in the
lifecycle-state cache, `Lifecycle2State` answers `ERROR_NONE` with
`unloaded` and `LifecycleState` answers `ERROR_NONE` with `unloading`. -/
theorem lifecycleState_defaults_unloaded (st : LifecycleDelegateState)
    (appId : List Char)
    (h : lookupAssoc st.lifecycleStateMap (getAppInstanceId st appId) = none) :
    lifecycle2State st appId = (.errorNone, "unloaded".data) ∧
    lifecycleState st appId = (.errorNone, "unloading".data) := by
  constructor <;>
    simp [lifecycle2State, lifecycleState, getLifecycleStateInfo, h,
      lifecycleStateToString, lifecycle2StateToLifecycle1String]

/-- C10 (witness): the default theorem on the empty delegate state. -/
theorem lifecycleState_defaults_unloaded_witness :
    lifecycle2State ⟨[], []⟩ "someApp".data = (.errorNone, "unloaded".data) ∧
    lifecycleState ⟨[], []⟩ "someApp".data = (.errorNone, "unloading".data) :=
  lifecycleState_defaults_unloaded ⟨[], []⟩ "someApp".data (by decide)

end AppGateway
